import Mathlib

/-!
Verification development for the IndxNodeLoader repository.

The repository is a TypeScript command-line workflow that provisions a remote
full-text search service.  The development below embeds, as plain Lean
functions, the parts of the code that the verified statements are about:

* `src/src/types/indx-search-lib.ts` — the type definitions (`SystemState`,
  `SystemStatus`, filter and boost records), the per-dataset configuration
  table (`getConfig`, `getAvailableDatasets`), the API wrapper functions
  (each a pure function from the HTTP response the remote service supplies
  to the wrapper result) and the large `loadDataset` orchestration
  function;
* `src/src/index.ts` — only the dataset lookup guard of `main` matters here.

Remote responses and platform facilities (the file system, `path.resolve`,
number formatting) are supplied through a `World` record of oracles; the
orchestration itself is deterministic given such a `World`.  `process.exit`
is embedded as a short-circuiting outcome because in Node it never returns
to the caller.  The model records, in order, every HTTP request issued and
every console line emitted, so that sequencing and logging statements can
be proved about it.
-/

namespace Indx

/-- Dataset system state (source lines 28-36). -/
inductive SystemState
  | Hibernated
  | Created
  | Loading
  | Loaded
  | Indexing
  | Ready
  | Error
deriving DecidableEq, Inhabited

/-- Numeric codes of the `SystemState` enum (source lines 28-36). -/
def SystemState.code : SystemState → Int
  | .Hibernated => -1
  | .Created => 0
  | .Loading => 1
  | .Loaded => 2
  | .Indexing => 3
  | .Ready => 4
  | .Error => 255

/-- Search field weight (source lines 42-46 / 194-198). -/
inductive Weight
  | High
  | Med
  | Low
deriving DecidableEq

/-- Numeric codes of the `Weight` enum: High = 0, Med = 1, Low = 2. -/
def Weight.code : Weight → Int
  | .High => 0
  | .Med => 1
  | .Low => 2

/-- Boost strength enum (source lines 51-55). -/
inductive BoostStrength
  | Low
  | Medium
  | High
deriving DecidableEq

/-- Numeric codes of the `BoostStrength` enum. -/
def BoostStrength.code : BoostStrength → Int
  | .Low => 1
  | .Medium => 2
  | .High => 3

/-- License information record (source lines 77-87). -/
structure LicenseInfo where
  description : Option String
  documentLimit : Int
  documentLimitExceeded : Bool
  expirationDate : String
  licensed : Bool
  licensedTo : Option String
  licenseFileName : Option String
  type : Option String
  validLicense : Bool
deriving DecidableEq

/-- System status snapshot returned by GetStatus (source lines 58-75). -/
structure SystemStatus where
  documentCount : Int
  errorMessage : Option String
  invalidArgument : Bool
  invalidDataSetName : Bool
  invalidState : Bool
  licenseInfo : LicenseInfo
  reIndexRequired : Bool
  searchCounter : Int
  secondsToIndex : Int
  systemState : SystemState
  timeOfInstanceCreation : String
  timeOfLastIndexBuild : String
  tooLongClientText : Bool
  tooLongSearchText : Bool
  unknownConfigurationError : Bool
  version : Option String
deriving DecidableEq

/-- Test fixture: a status snapshot in the given state, all other fields blank. -/
def mkStatus (s : SystemState) : SystemStatus where
  documentCount := 0
  errorMessage := none
  invalidArgument := false
  invalidDataSetName := false
  invalidState := false
  licenseInfo :=
    { description := none, documentLimit := 0, documentLimitExceeded := false
      expirationDate := "", licensed := true, licensedTo := none
      licenseFileName := none, type := none, validLicense := true }
  reIndexRequired := false
  searchCounter := 0
  secondsToIndex := 0
  systemState := s
  timeOfInstanceCreation := ""
  timeOfLastIndexBuild := ""
  tooLongClientText := false
  tooLongSearchText := false
  unknownConfigurationError := false
  version := none

/-- Opaque filter reference returned by the service (source lines 141-144). -/
structure FilterProxy where
  id : String
  fieldName : String
deriving DecidableEq

/-- Range filter input (source lines 150-154); numeric limits modelled as `Rat`. -/
structure RangeFilterProxy where
  fieldName : String
  lowerLimit : Rat
  upperLimit : Rat
deriving DecidableEq

/-- Value filter input (source lines 160-163); the `any` value modelled as `Rat`. -/
structure ValueFilterProxy where
  fieldName : String
  value : Rat
deriving DecidableEq

/-- The declared shape of a combine-filters request body (source lines 169-173). -/
structure CombinedFilterProxy where
  filter1 : FilterProxy
  filter2 : FilterProxy
  useAnd : Bool
deriving DecidableEq

/-- Boost request body (source lines 181-184); strength carried as its numeric code. -/
structure BoostProxy where
  filterProxy : FilterProxy
  boostStrength : Int
deriving DecidableEq

/-- One ranked search hit (source lines 125-128); the score modelled as `Rat`. -/
structure SearchRecord where
  documentKey : Int
  score : Rat
deriving DecidableEq

/-- Facet count entry (source lines 130-133). -/
structure StringInt32KeyValuePair where
  key : String
  value : Int
deriving DecidableEq

/-- Search result (source lines 117-123). -/
structure Result where
  records : Option (List SearchRecord)
  facets : Option (List (String × List StringInt32KeyValuePair))
  didTimeOut : Bool
  truncationIndex : Int
  truncationScore : Rat
deriving DecidableEq

/-- Search query parameters (source lines 95-110); the coverage setup is never
used by this repository and is omitted. -/
structure CloudQuery where
  text : Option String
  maxNumberOfRecordsToReturn : Option Int := none
  sortBy : Option String := none
  sortAscending : Option Bool := none
  filter : Option FilterProxy := none
  boosts : Option (List BoostProxy) := none
  enableBoost : Option Bool := none
  enableCoverage : Option Bool := none
  enableFacets : Option Bool := none
  coverageDepth : Option Int := none
  removeDuplicates : Option Bool := none
  logPrefix : Option String := none
  timeOutLimitMilliseconds : Option Int := none
deriving DecidableEq

/-- Searchable field entry of a dataset configuration (source lines 200-203). -/
structure SearchableField where
  name : String
  weight : Int
deriving DecidableEq

/-- Per-dataset configuration record (source lines 205-214). -/
structure DatasetConfig where
  name : String
  filePath : String
  searchableFields : List SearchableField
  wordIndexingFields : List String
  filterableFields : List String
  facetableFields : List String
  sortableFields : List String
  testQuery : String
deriving DecidableEq

/-- The static `tmdb` descriptor returned by `getConfig` (source lines 224-238). -/
def tmdbConfig : DatasetConfig where
  name := "tmdb"
  filePath := "data/tmdb_top10k.json"
  searchableFields :=
    [ { name := "title", weight := Weight.code .High }
    , { name := "original_title", weight := Weight.code .Med }
    , { name := "description", weight := Weight.code .Med }
    , { name := "actors", weight := Weight.code .Low } ]
  wordIndexingFields := ["title"]
  filterableFields :=
    ["release_year", "vote_average", "vote_count_tier", "genres", "decade", "actors", "language"]
  facetableFields :=
    ["release_year", "vote_average", "vote_count_tier", "genres", "decade", "actors", "language"]
  sortableFields := ["popularity", "vote_average"]
  testQuery := "titanic"

/-- The static `pokedex` descriptor returned by `getConfig` (source lines 241-254). -/
def pokedexConfig : DatasetConfig where
  name := "pokedex"
  filePath := "data/pokedex.json"
  searchableFields :=
    [ { name := "name", weight := Weight.code .High }
    , { name := "type1", weight := Weight.code .Med }
    , { name := "type2", weight := Weight.code .Low } ]
  wordIndexingFields := ["name", "type1", "type2"]
  filterableFields := ["speed", "attack", "hp", "type1", "type2", "is_legendary"]
  facetableFields := ["speed", "attack", "hp", "type1", "type2", "is_legendary"]
  sortableFields := ["name", "speed"]
  testQuery := "raic"

/-- Model of the JavaScript `String.prototype.toLowerCase` used by `getConfig`:
every character is lowered independently. -/
def toLowerStr (s : String) : String := String.mk (s.data.map Char.toLower)

/-- Dataset configuration lookup (source lines 219-259): lower-case the name,
then switch over the two known datasets, returning null otherwise. -/
def getConfig (datasetName : String) : Option DatasetConfig :=
  let lowerName := toLowerStr datasetName
  if lowerName = "tmdb" then some tmdbConfig
  else if lowerName = "pokedex" then some pokedexConfig
  else none

/-- List of all available datasets (source lines 264-266). -/
def getAvailableDatasets : List String := ["tmdb", "pokedex"]

/-!
### JSON bodies

A small JSON value type, used to state what the client actually places in a
request body where the claims are about serialization shape.
-/

/-- JSON values (numbers restricted to the integers this client sends). -/
inductive Json
  | str (s : String)
  | num (n : Int)
  | bool (b : Bool)
  | arr (elems : List Json)
  | obj (fields : List (String × Json))

/-- Key list of a JSON object; empty for non-objects. -/
def Json.keys : Json → List String
  | .obj fields => fields.map Prod.fst
  | _ => []

/-- Whether a JSON value is an object (a value with named properties). -/
def Json.isObj : Json → Bool
  | .obj _ => true
  | _ => false

/-- Element list of a JSON array; empty for non-arrays. -/
def Json.elems : Json → List Json
  | .arr es => es
  | _ => []

/-- Whether a JSON value is an array of exactly two elements, the shape of a
positionally-serialized pair. -/
def Json.isPairArray : Json → Bool
  | .arr [_, _] => true
  | _ => false

/-- The body `setSearchableFields` sends (source line 785): each field becomes
the C# ValueTuple JSON object with properties Item1 (name) and Item2 (weight). -/
def setSearchableFieldsBody (fields : List SearchableField) : Json :=
  Json.arr (fields.map fun f => Json.obj [("Item1", Json.str f.name), ("Item2", Json.num f.weight)])

/-- JSON serialization of a `FilterProxy`. -/
def filterProxyJson (p : FilterProxy) : Json :=
  Json.obj [("id", Json.str p.id), ("fieldName", Json.str p.fieldName)]

/-- The combine-filters body as constructed at the call site (source lines
988-992): an object literal with keys a, b and useAndOperation. -/
def combineFiltersSentBody (f1 f2 : FilterProxy) : Json :=
  Json.obj [("a", filterProxyJson f1), ("b", filterProxyJson f2), ("useAndOperation", Json.bool true)]

/-- Serialization of the declared `CombinedFilterProxy` interface (source lines
169-173): keys filter1, filter2 and useAnd. -/
def combinedFilterProxyJson (c : CombinedFilterProxy) : Json :=
  Json.obj [("filter1", filterProxyJson c.filter1), ("filter2", filterProxyJson c.filter2),
            ("useAnd", Json.bool c.useAnd)]

/-!
### API wrapper functions

Each TypeScript wrapper in `indx-search-lib.ts` issues one HTTP request and
inspects the response.  The embedding makes the response an explicit
argument: `none` stands for a thrown/rejected request, `some (code, data)`
for a reply with HTTP status `code` and decoded body `data`.  Wrappers that
call `process.exit` on failure return a `Step` whose `exit` constructor
records the exit code; in Node `process.exit` does not return, so the lines
after it (such as the trailing `return null` of `getStatus`) are dead and
have no counterpart here.
-/

/-- An HTTP response as seen by a wrapper: `none` when the request threw. -/
abbrev HttpResp (α : Type) := Option (Nat × α)

/-- The axios success test used by every wrapper: 200 <= status < 300. -/
def is2xx (code : Nat) : Bool := decide (200 ≤ code ∧ code < 300)

/-- Result of a wrapper that may terminate the whole process. -/
inductive Step (α : Type)
  | ok (a : α)
  | exit (code : Int)
deriving DecidableEq

/-- `analyze` (source lines 296-313): 2xx gives the status body, anything else
(including a thrown request) logs and returns null. -/
def analyze (resp : HttpResp SystemStatus) : Option SystemStatus :=
  match resp with
  | some (code, st) => if is2xx code then some st else none
  | none => none

/-- `createOrOpenDataSet` (source lines 390-401): true exactly on a 2xx
response; a thrown request is caught and gives false. -/
def createOrOpenDataSet (resp : Option Nat) : Bool :=
  match resp with
  | some code => is2xx code
  | none => false

/-- Shared body of the PUT wrappers that return a boolean (the five set-fields
calls, `indexDataSet`, `loadStreamAsync`): 2xx means success, a thrown request
is caught and gives false. -/
def putOk (resp : Option Nat) : Bool :=
  match resp with
  | some code => is2xx code
  | none => false

/-- `setSearchableFields` (source lines 783-794): builds the Item1/Item2 tuple
body (see `setSearchableFieldsBody`) and reports whether the PUT got a 2xx. -/
def setSearchableFields (fields : List SearchableField) (resp : Option Nat) : Bool :=
  let _tuples := setSearchableFieldsBody fields
  putOk resp

/-- `setFilterableFields` (source lines 751-758). -/
def setFilterableFields (fields : List String) (resp : Option Nat) : Bool :=
  let _body := fields
  putOk resp

/-- `setFacetableFields` (source lines 739-746). -/
def setFacetableFields (fields : List String) (resp : Option Nat) : Bool :=
  let _body := fields
  putOk resp

/-- `setSortableFields` (source lines 799-806). -/
def setSortableFields (fields : List String) (resp : Option Nat) : Bool :=
  let _body := fields
  putOk resp

/-- `setWordIndexingFields` (source lines 811-818). -/
def setWordIndexingFields (fields : List String) (resp : Option Nat) : Bool :=
  let _body := fields
  putOk resp

/-- `indexDataSet` (source lines 655-662). -/
def indexDataSet (resp : Option Nat) : Bool := putOk resp

/-- `loadStreamAsync` (source lines 679-701): success is a 2xx on the streamed
PUT; errors are caught, logged and give false. -/
def loadStreamAsync (resp : Option Nat) : Bool := putOk resp

/-- Shared body of the GET wrappers for field lists (`getAllFields` and the
five verification reads, source lines 468-596): a 2xx returns the list, a
non-2xx or thrown request logs a failure line and calls `process.exit(-1)`. -/
def fieldListGet (resp : HttpResp (List String)) : Step (List String) :=
  match resp with
  | some (code, data) => if is2xx code then .ok data else .exit (-1)
  | none => .exit (-1)

/-- `getAllFields` (source lines 468-482). -/
def getAllFields (resp : HttpResp (List String)) : Step (List String) := fieldListGet resp

/-- `getSearchableFields` (source lines 525-539). -/
def getSearchableFields (resp : HttpResp (List String)) : Step (List String) := fieldListGet resp

/-- `getSortableFields` (source lines 563-577). -/
def getSortableFields (resp : HttpResp (List String)) : Step (List String) := fieldListGet resp

/-- `getFacetableFields` (source lines 487-501). -/
def getFacetableFields (resp : HttpResp (List String)) : Step (List String) := fieldListGet resp

/-- `getFilterableFields` (source lines 506-520). -/
def getFilterableFields (resp : HttpResp (List String)) : Step (List String) := fieldListGet resp

/-- `getWordIndexingFields` (source lines 582-596). -/
def getWordIndexingFields (resp : HttpResp (List String)) : Step (List String) := fieldListGet resp

/-- `getJson` (source lines 544-558): same pattern as the field list reads. -/
def getJson (keys : List Int) (resp : HttpResp (List String)) : Step (List String) :=
  let _body := keys
  fieldListGet resp

/-- `getStatus` (source lines 617-631): a 2xx returns the status snapshot; a
non-2xx or thrown request logs and calls `process.exit(-1)`.  The trailing
`return null` of the source is unreachable, so the only returned value is a
non-null snapshot; the codomain keeps the `Option` of the TypeScript
signature so that this can be stated and proved. -/
def getStatus (resp : HttpResp SystemStatus) : Step (Option SystemStatus) :=
  match resp with
  | some (code, st) => if is2xx code then .ok (some st) else .exit (-1)
  | none => .exit (-1)

/-- `getNumberOfJsonRecordsInDb` (source lines 601-612): failures give 0. -/
def getNumberOfJsonRecordsInDb (resp : HttpResp Int) : Int :=
  match resp with
  | some (code, n) => if is2xx code then n else 0
  | none => 0

/-- Shared body of the filter-creating PUT wrappers (`createRangeFilter`,
`createValueFilter`, `combineFilters`, source lines 352-366 and 406-439):
a 2xx returns the proxy the server issued, anything else null. -/
def filterPut (resp : HttpResp FilterProxy) : Option FilterProxy :=
  match resp with
  | some (code, p) => if is2xx code then some p else none
  | none => none

/-- `createRangeFilter` (source lines 406-420). -/
def createRangeFilter (body : RangeFilterProxy) (resp : HttpResp FilterProxy) : Option FilterProxy :=
  let _body := body
  filterPut resp

/-- `createValueFilter` (source lines 425-439). -/
def createValueFilter (body : ValueFilterProxy) (resp : HttpResp FilterProxy) : Option FilterProxy :=
  let _body := body
  filterPut resp

/-- `combineFilters` (source lines 352-366).  The body argument is the JSON
value the call site constructs (see `combineFiltersSentBody`). -/
def combineFilters (body : Json) (resp : HttpResp FilterProxy) : Option FilterProxy :=
  let _body := body
  filterPut resp

/-- `createBoost` (source lines 371-385). -/
def createBoost (body : BoostProxy) (resp : HttpResp BoostProxy) : Option BoostProxy :=
  let _body := body
  match resp with
  | some (code, b) => if is2xx code then some b else none
  | none => none

/-- `search` (source lines 723-734): a 2xx returns the result, anything else
(including a thrown request) gives null. -/
def search (q : CloudQuery) (resp : HttpResp Result) : Option Result :=
  let _q := q
  match resp with
  | some (code, r) => if is2xx code then some r else none
  | none => none

/-!
### The load orchestration (`loadDataset`, source lines 839-1130)

The orchestration is decomposed phase by phase, following the numbered step
comments of the source.  Each phase function returns the HTTP requests it
issues (in order), the console lines it emits (in order) and how the run
ends from that point on.
-/

/-- The HTTP requests the orchestration can issue, one constructor per
endpoint touched by `loadDataset`. -/
inductive Req
  | createOrOpenReq
  | analyzeReq
  | getStatusReq
  | getAllFieldsReq
  | setSearchableReq
  | setFilterableReq
  | setFacetableReq
  | setSortableReq
  | setWordIndexingReq
  | getSearchableReq
  | getSortableReq
  | getFacetableReq
  | getFilterableReq
  | getWordIndexingReq
  | createRangeFilterReq
  | createValueFilterReq
  | combineFiltersReq
  | createBoostReq
  | loadStreamReq
  | getNumRecordsReq
  | indexDataSetReq
  | searchReq
  | getJsonReq
deriving DecidableEq

/-- Console lines, tagged by the `ConsoleHelper` channel that emits them. -/
inductive Msg
  | header (s : String)
  | success (s : String)
  | info (s : String)
  | warning (s : String)
  | error (s : String)
  | progress (s : String)
  | plain (s : String)
  | blank
deriving DecidableEq

/-- How a run of `loadDataset` ends: normal completion, an early `return`,
a `process.exit` from inside a wrapper, or the supplied oracle running out
of responses while the code still wants one (the model counterpart of a run
that is still in progress, e.g. a polling loop that never stops). -/
inductive RunOutcome
  | completed
  | aborted
  | procExit (code : Int)
  | noMoreResponses
deriving DecidableEq

/-- How a status-polling loop ends: `done` with the last observed snapshot
when `proceed` turned false, `procExit` when a status fetch failed, or
`noMoreResponses` when every supplied poll left `proceed` true. -/
inductive LoopOutcome
  | done (last : Option SystemStatus)
  | procExit (code : Int)
  | noMoreResponses
deriving DecidableEq

/-- What a polling loop produced: its requests, progress lines and outcome. -/
structure LoopRun where
  reqs : List Req
  msgs : List Msg
  out : LoopOutcome

/-- The run of dots of a progress line, `.repeat(dotCount % 4)`. -/
def dots (n : Nat) : String := String.mk (List.replicate n '.')

/-- The load-wait condition (source lines 1030-1035): keep polling exactly
while the observed state is Loading; a null status would stop the loop. -/
def loadProceedOf : Option SystemStatus → Bool
  | some st => st.systemState == SystemState.Loading
  | none => false

/-- The index-wait condition (source lines 1066-1071): keep polling exactly
while the observed state differs from Ready; a null status would stop the
loop. -/
def indexProceedOf : Option SystemStatus → Bool
  | some st => st.systemState != SystemState.Ready
  | none => false

/-- One do/while status-polling loop (source lines 1026-1037 and 1062-1073).
Each iteration prints a progress line, fetches the status (consuming the next
oracle response), recomputes `proceed` and repeats while it holds.  The body
runs at least once. -/
def waitLoop (proceedOf : Option SystemStatus → Bool) (label : String) :
    List (HttpResp SystemStatus) → Nat → LoopRun
  | [], _ => ⟨[], [], .noMoreResponses⟩
  | r :: rest, dotCount =>
    let msg := Msg.progress (label ++ dots ((dotCount + 1) % 4) ++ "   ")
    match getStatus r with
    | .exit c => ⟨[Req.getStatusReq], [msg], .procExit c⟩
    | .ok st =>
      if proceedOf st then
        let next := waitLoop proceedOf label rest (dotCount + 1)
        ⟨Req.getStatusReq :: next.reqs, msg :: next.msgs, next.out⟩
      else ⟨[Req.getStatusReq], [msg], .done st⟩

/-- The environment a run of `loadDataset` interacts with: the file system
check, path resolution, the formatting of sizes, durations and numbers
(external floating-point and locale behavior supplied as rendered strings),
and one response per HTTP call site, with response lists for the call sites
inside loops.  Fields appear in call order. -/
structure World where
  fileExists : Bool
  resolvePath : String → String
  fileSizeStr : String
  openResp : Option Nat
  analyzeResp : HttpResp SystemStatus
  status1Resp : HttpResp SystemStatus
  allFieldsResp : HttpResp (List String)
  setSearchableResp : Option Nat
  setFilterableResp : Option Nat
  setFacetableResp : Option Nat
  setSortableResp : Option Nat
  setWordIndexingResp : Option Nat
  readSearchableResp : HttpResp (List String)
  readSortableResp : HttpResp (List String)
  readFacetableResp : HttpResp (List String)
  readFilterableResp : HttpResp (List String)
  readWordIndexingResp : HttpResp (List String)
  rangeFilterResp : HttpResp FilterProxy
  valueFilterResp : HttpResp FilterProxy
  combineResp : HttpResp FilterProxy
  boostResp : HttpResp BoostProxy
  loadStreamResp : Option Nat
  preLoadStatusResp : HttpResp SystemStatus
  loadPolls : List (HttpResp SystemStatus)
  loadDurStr : String
  numRecordsResp : HttpResp Int
  fmtNum : Int → String
  indexResp : Option Nat
  indexPolls : List (HttpResp SystemStatus)
  indexDurStr : String
  searchResp : HttpResp Result
  getJsonResps : List (HttpResp (List String))
  fmtScore : Rat → String

/-- What a run (or the rest of a run) produced. -/
structure Run where
  reqs : List Req
  msgs : List Msg
  out : RunOutcome

/-- JavaScript `rec[0]` under string interpolation: undefined prints as the
text undefined. -/
def headOrUndefined : List String → String
  | [] => "undefined"
  | s :: _ => s

/-- The per-result display loop (source lines 1103-1112): for each returned
record fetch its raw document (one `getJson` call each, which exits the
process on failure) and print score, key and document. -/
def displayResults (w : World) :
    List SearchRecord → List (HttpResp (List String)) → Nat → Run
  | [], _, _ => ⟨[], [], .completed⟩
  | item :: restRecs, resps, resultNum =>
    match resps with
    | [] => ⟨[Req.getJsonReq], [], .noMoreResponses⟩
    | jr :: restResps =>
      match getJson [item.documentKey] jr with
      | .exit c => ⟨[Req.getJsonReq], [], .procExit c⟩
      | .ok rec =>
        let ms := [ Msg.plain ("Result " ++ toString resultNum ++ ":")
                  , Msg.info ("  Score: " ++ w.fmtScore item.score)
                  , Msg.info ("  Document Key: " ++ toString item.documentKey)
                  , Msg.info ("  Data: " ++ headOrUndefined rec)
                  , Msg.blank ]
        let next := displayResults w restRecs restResps (resultNum + 1)
        ⟨Req.getJsonReq :: next.reqs, ms ++ next.msgs, next.out⟩

/-- The final summary block (source lines 1115-1129). -/
def summaryMsgs (cfg : DatasetConfig) (w : World) (numberOfRecords : Int)
    (resultsCount : Nat) : List Msg :=
  [ Msg.header "Dataset Load Complete"
  , Msg.plain ("  Dataset: " ++ cfg.name)
  , Msg.plain ("  Total Records: " ++ w.fmtNum numberOfRecords)
  , Msg.plain ("  Searchable Fields: " ++ toString cfg.searchableFields.length)
  , Msg.plain ("  Word Indexing Fields: " ++ toString cfg.wordIndexingFields.length)
  , Msg.plain ("  Filterable Fields: " ++ toString cfg.filterableFields.length)
  , Msg.plain ("  Facetable Fields: " ++ toString cfg.facetableFields.length)
  , Msg.plain ("  Sortable Fields: " ++ toString cfg.sortableFields.length)
  , Msg.plain ("  Loading Time: " ++ w.loadDurStr ++ "s")
  , Msg.plain ("  Indexing Time: " ++ w.indexDurStr ++ "s")
  , Msg.plain ("  Test Query Results: " ++ toString resultsCount)
  , Msg.success "Dataset is ready for use!"
  , Msg.blank ]

/-- The test query built in step 13 (source lines 1084-1090): the preset
query text, at most 5 results, sorted by the first sortable field (or the
empty string when there is none), facets and boosts disabled. -/
def testQueryOf (cfg : DatasetConfig) : CloudQuery :=
  { text := some cfg.testQuery
    maxNumberOfRecordsToReturn := some 5
    sortBy := some (cfg.sortableFields.headD "")
    enableFacets := some false
    enableBoost := some false }

/-- Step 13, the test search (source lines 1081-1112), then the summary. -/
def searchPhase (cfg : DatasetConfig) (w : World) (numberOfRecords : Int) : Run :=
  let preMsgs := [ Msg.header "Running Test Search"
                 , Msg.info ("Search query: \"" ++ cfg.testQuery ++ "\"") ]
  let failMsgs := preMsgs ++ [Msg.error "Search returned no results"]
  match search (testQueryOf cfg) w.searchResp with
  | none => ⟨[Req.searchReq], failMsgs, .aborted⟩
  | some res =>
    match res.records with
    | none => ⟨[Req.searchReq], failMsgs, .aborted⟩
    | some recs =>
      if recs.length = 0 then ⟨[Req.searchReq], failMsgs, .aborted⟩
      else
        let okMsgs := [Msg.success ("Found " ++ toString recs.length ++ " results"), Msg.blank]
        let disp := displayResults w recs w.getJsonResps 1
        match disp.out with
        | .completed =>
          ⟨Req.searchReq :: disp.reqs,
           preMsgs ++ okMsgs ++ disp.msgs ++ summaryMsgs cfg w numberOfRecords recs.length,
           .completed⟩
        | .procExit c =>
          ⟨Req.searchReq :: disp.reqs, preMsgs ++ okMsgs ++ disp.msgs, .procExit c⟩
        | _ =>
          ⟨Req.searchReq :: disp.reqs, preMsgs ++ okMsgs ++ disp.msgs, .noMoreResponses⟩

/-- Step 12, triggering the index build and waiting for it (source lines
1049-1078), then the search phase. -/
def indexPhase (cfg : DatasetConfig) (w : World) (numberOfRecords : Int) : Run :=
  let preMsgs := [ Msg.header "Building Search Index"
                 , Msg.info "Indexing dataset (this may take a moment)..." ]
  if indexDataSet w.indexResp then
    let loop := waitLoop indexProceedOf "Indexing" w.indexPolls 0
    match loop.out with
    | .done _ =>
      let afterMsgs :=
        [Msg.blank, Msg.success ("Index built in " ++ w.indexDurStr ++ " seconds"), Msg.blank]
      let tail := searchPhase cfg w numberOfRecords
      ⟨Req.indexDataSetReq :: loop.reqs ++ tail.reqs,
       preMsgs ++ loop.msgs ++ afterMsgs ++ tail.msgs, tail.out⟩
    | .procExit c =>
      ⟨Req.indexDataSetReq :: loop.reqs, preMsgs ++ loop.msgs, .procExit c⟩
    | .noMoreResponses =>
      ⟨Req.indexDataSetReq :: loop.reqs, preMsgs ++ loop.msgs, .noMoreResponses⟩
  else
    ⟨[Req.indexDataSetReq], preMsgs ++ [Msg.error "Failed to start indexing"], .aborted⟩

/-- Step 11, streaming the file and waiting for the load (source lines
1007-1046), then the index phase. -/
def loadPhase (cfg : DatasetConfig) (w : World) : Run :=
  let preMsgs := [ Msg.header "Loading Data"
                 , Msg.info ("Streaming data from " ++ cfg.filePath ++ "...") ]
  if loadStreamAsync w.loadStreamResp then
    match getStatus w.preLoadStatusResp with
    | .exit c => ⟨[Req.loadStreamReq, Req.getStatusReq], preMsgs, .procExit c⟩
    | .ok _ =>
      let loop := waitLoop loadProceedOf "Loading data" w.loadPolls 0
      match loop.out with
      | .done _ =>
        let numberOfRecords := getNumberOfJsonRecordsInDb w.numRecordsResp
        let afterMsgs :=
          [ Msg.blank
          , Msg.success ("Data loaded in " ++ w.loadDurStr ++ " seconds")
          , Msg.info ("Total records: " ++ w.fmtNum numberOfRecords)
          , Msg.blank ]
        let tail := indexPhase cfg w numberOfRecords
        ⟨Req.loadStreamReq :: Req.getStatusReq :: loop.reqs ++ [Req.getNumRecordsReq] ++ tail.reqs,
         preMsgs ++ loop.msgs ++ afterMsgs ++ tail.msgs, tail.out⟩
      | .procExit c =>
        ⟨Req.loadStreamReq :: Req.getStatusReq :: loop.reqs, preMsgs ++ loop.msgs, .procExit c⟩
      | .noMoreResponses =>
        ⟨Req.loadStreamReq :: Req.getStatusReq :: loop.reqs, preMsgs ++ loop.msgs, .noMoreResponses⟩
  else
    ⟨[Req.loadStreamReq], preMsgs ++ [Msg.error "Failed to load data"], .aborted⟩

/-- The optional filter/boost demonstration (source lines 970-1004), run only
for the pokedex dataset: build a range filter and a value filter
unconditionally and independently; only when both resolved, combine them
(with the AND flag); only when the combination resolved, create a high
boost.  Failures only skip the dependent calls. -/
def filterDemo (cfg : DatasetConfig) (w : World) : List Req :=
  if cfg.name = "pokedex" then
    let filter : RangeFilterProxy := { fieldName := "speed", lowerLimit := 10.5, upperLimit := 50.0 }
    let filt1 := createRangeFilter filter w.rangeFilterResp
    let vf : ValueFilterProxy := { fieldName := "speed", value := 50 }
    let filt2 := createValueFilter vf w.valueFilterResp
    [Req.createRangeFilterReq, Req.createValueFilterReq] ++
      match filt1, filt2 with
      | some f1, some f2 =>
        let cf := combineFiltersSentBody f1 f2
        match combineFilters cf w.combineResp with
        | some combFilt =>
          let bp : BoostProxy := { filterProxy := combFilt, boostStrength := BoostStrength.code .High }
          let _res := createBoost bp w.boostResp
          [Req.combineFiltersReq, Req.createBoostReq]
        | none => [Req.combineFiltersReq]
      | _, _ => []
  else []

/-- Step 10, the verification re-reads (source lines 961-968): five GET
calls in a row, each of which exits the process on failure; then the
optional filter demonstration and the load phase. -/
def verifyPhase (cfg : DatasetConfig) (w : World) : Run :=
  let m0 := Msg.info "Verifying field configuration..."
  match getSearchableFields w.readSearchableResp with
  | .exit c => ⟨[Req.getSearchableReq], [m0], .procExit c⟩
  | .ok _ =>
  match getSortableFields w.readSortableResp with
  | .exit c => ⟨[Req.getSearchableReq, Req.getSortableReq], [m0], .procExit c⟩
  | .ok _ =>
  match getFacetableFields w.readFacetableResp with
  | .exit c => ⟨[Req.getSearchableReq, Req.getSortableReq, Req.getFacetableReq], [m0], .procExit c⟩
  | .ok _ =>
  match getFilterableFields w.readFilterableResp with
  | .exit c =>
    ⟨[Req.getSearchableReq, Req.getSortableReq, Req.getFacetableReq, Req.getFilterableReq],
     [m0], .procExit c⟩
  | .ok _ =>
  match getWordIndexingFields w.readWordIndexingResp with
  | .exit c =>
    ⟨[Req.getSearchableReq, Req.getSortableReq, Req.getFacetableReq, Req.getFilterableReq,
      Req.getWordIndexingReq], [m0], .procExit c⟩
  | .ok _ =>
    let demoReqs := filterDemo cfg w
    let tail := loadPhase cfg w
    ⟨[Req.getSearchableReq, Req.getSortableReq, Req.getFacetableReq, Req.getFilterableReq,
      Req.getWordIndexingReq] ++ demoReqs ++ tail.reqs,
     [m0, Msg.success "Field configuration verified", Msg.blank] ++ tail.msgs,
     tail.out⟩

/-- Steps 5-9, the five set-fields calls (source lines 902-958): each is
attempted only after the previous succeeded, and any failure aborts the run
with a category-specific error; then the verification phase. -/
def configurePhase (cfg : DatasetConfig) (w : World) : Run :=
  let m5 := Msg.info "Configuring searchable fields..."
  if setSearchableFields cfg.searchableFields w.setSearchableResp then
    let m5ok := Msg.success ("Configured " ++ toString cfg.searchableFields.length ++ " searchable fields")
      :: cfg.searchableFields.map
           (fun f => Msg.info ("  - " ++ f.name ++ " (weight: " ++ toString f.weight ++ ")"))
    let m6 := Msg.info "Configuring filterable fields..."
    if setFilterableFields cfg.filterableFields w.setFilterableResp then
      let m6ok := [Msg.success ("Configured " ++ toString cfg.filterableFields.length ++ " filterable fields")]
      let m7 := Msg.info "Configuring facetable fields..."
      if setFacetableFields cfg.facetableFields w.setFacetableResp then
        let m7ok := [Msg.success ("Configured " ++ toString cfg.facetableFields.length ++ " facetable fields")]
        let m8 := Msg.info "Configuring sortable fields..."
        if setSortableFields cfg.sortableFields w.setSortableResp then
          let m8ok := [Msg.success ("Configured " ++ toString cfg.sortableFields.length ++ " sortable fields")]
          let m9 := Msg.info "Configuring word indexing fields..."
          if setWordIndexingFields cfg.wordIndexingFields w.setWordIndexingResp then
            let m9ok := Msg.success ("Configured " ++ toString cfg.wordIndexingFields.length ++ " word indexing fields")
              :: cfg.wordIndexingFields.map (fun f => Msg.info ("  - " ++ f)) ++ [Msg.blank]
            let tail := verifyPhase cfg w
            ⟨[Req.setSearchableReq, Req.setFilterableReq, Req.setFacetableReq, Req.setSortableReq,
              Req.setWordIndexingReq] ++ tail.reqs,
             [m5] ++ m5ok ++ [m6] ++ m6ok ++ [m7] ++ m7ok ++ [m8] ++ m8ok ++ [m9] ++ m9ok ++ tail.msgs,
             tail.out⟩
          else
            ⟨[Req.setSearchableReq, Req.setFilterableReq, Req.setFacetableReq, Req.setSortableReq,
              Req.setWordIndexingReq],
             [m5] ++ m5ok ++ [m6] ++ m6ok ++ [m7] ++ m7ok ++ [m8] ++ m8ok
               ++ [m9, Msg.error "Failed to set word indexing fields"], .aborted⟩
        else
          ⟨[Req.setSearchableReq, Req.setFilterableReq, Req.setFacetableReq, Req.setSortableReq],
           [m5] ++ m5ok ++ [m6] ++ m6ok ++ [m7] ++ m7ok
             ++ [m8, Msg.error "Failed to set sortable fields"], .aborted⟩
      else
        ⟨[Req.setSearchableReq, Req.setFilterableReq, Req.setFacetableReq],
         [m5] ++ m5ok ++ [m6] ++ m6ok ++ [m7, Msg.error "Failed to set facetable fields"], .aborted⟩
    else
      ⟨[Req.setSearchableReq, Req.setFilterableReq],
       [m5] ++ m5ok ++ [m6, Msg.error "Failed to set filterable fields"], .aborted⟩
  else
    ⟨[Req.setSearchableReq], [m5, Msg.error "Failed to set searchable fields"], .aborted⟩

/-- Steps 3-4, the analyze call, the verification status fetch and the field
discovery (source lines 884-900), then the configure phase. -/
def analyzePhase (cfg : DatasetConfig) (w : World) : Run :=
  let m3 := Msg.info "Analyzing data structure..."
  match analyze w.analyzeResp with
  | none =>
    ⟨[Req.analyzeReq], [m3, Msg.error "Failed to analyze data file"], .aborted⟩
  | some _ =>
    let m3ok := Msg.success "Data structure analyzed"
    match getStatus w.status1Resp with
    | .exit c => ⟨[Req.analyzeReq, Req.getStatusReq], [m3, m3ok], .procExit c⟩
    | .ok _ =>
      let m4 := Msg.info "Discovering fields in dataset..."
      match getAllFields w.allFieldsResp with
      | .exit c => ⟨[Req.analyzeReq, Req.getStatusReq, Req.getAllFieldsReq], [m3, m3ok, m4], .procExit c⟩
      | .ok list =>
        let m4ok := [ Msg.success ("Found " ++ toString list.length ++ " fields")
                    , Msg.info ("Fields: " ++ String.intercalate ", " list)
                    , Msg.blank ]
        let tail := configurePhase cfg w
        ⟨[Req.analyzeReq, Req.getStatusReq, Req.getAllFieldsReq] ++ tail.reqs,
         [m3, m3ok, m4] ++ m4ok ++ tail.msgs, tail.out⟩

/-- Step 2, creating or opening the dataset (source lines 861-881), then the
analyze phase.  The catch branch of the source is dead because
`createOrOpenDataSet` catches its own errors and returns false. -/
def openPhase (cfg : DatasetConfig) (w : World) : Run :=
  let m2 := Msg.info "Creating or opening dataset..."
  if createOrOpenDataSet w.openResp then
    let tail := analyzePhase cfg w
    ⟨Req.createOrOpenReq :: tail.reqs,
     [m2, Msg.success "Dataset opened successfully"] ++ tail.msgs, tail.out⟩
  else
    ⟨[Req.createOrOpenReq],
     [ m2
     , Msg.error "Failed to create or open dataset."
     , Msg.info "Troubleshooting:"
     , Msg.info "  1. Verify API_URI in .env.local is correct"
     , Msg.info "  2. Ensure IndxCloudApi is running"
     , Msg.info "  3. Check that BEARER_TOKEN is valid (not expired)" ], .aborted⟩

/-- `loadDataset` (source lines 839-1130): the configuration and file
existence guards (step 0, lines 841-859), then the phase chain. -/
def loadDataset (datasetName : String) (config : Option DatasetConfig) (w : World) : Run :=
  match config with
  | none =>
    ⟨[], [ Msg.error ("Unknown dataset: " ++ datasetName)
         , Msg.info ("Available datasets: " ++ String.intercalate ", " ["tmdb", "pokedex"]) ],
     .aborted⟩
  | some cfg =>
    if w.fileExists then
      let preMsgs := [ Msg.header ("Loading Dataset: " ++ cfg.name)
                     , Msg.info ("Data file: " ++ cfg.filePath)
                     , Msg.info ("File size: " ++ w.fileSizeStr ++ " MB")
                     , Msg.blank ]
      let tail := openPhase cfg w
      ⟨tail.reqs, preMsgs ++ tail.msgs, tail.out⟩
    else
      ⟨[], [ Msg.error ("Data file not found: " ++ cfg.filePath)
           , Msg.info "Please ensure the data file exists in the correct location."
           , Msg.info ("Expected path: " ++ w.resolvePath cfg.filePath) ], .aborted⟩

/-!
### Test fixtures

Concrete worlds used to instantiate the theorems below on closed inputs.
-/

/-- A successful (2xx) status fetch observing the given state. -/
def okStatus (s : SystemState) : HttpResp SystemStatus := some (200, mkStatus s)

/-- Whether a response is a 2xx success at the transport level. -/
def respOk {α : Type} : HttpResp α → Bool
  | some (code, _) => is2xx code
  | none => false

/-- A world in which every remote interaction succeeds: the load loop sees
Loading then Loaded, the index loop sees Indexing then Ready, and the test
search returns one record. -/
def wAllOk : World where
  fileExists := true
  resolvePath := fun p => "/home/dev/IndxNodeLoader/" ++ p
  fileSizeStr := "1.00"
  openResp := some 200
  analyzeResp := okStatus .Created
  status1Resp := okStatus .Created
  allFieldsResp := some (200, ["title", "description"])
  setSearchableResp := some 200
  setFilterableResp := some 200
  setFacetableResp := some 200
  setSortableResp := some 200
  setWordIndexingResp := some 200
  readSearchableResp := some (200, ["title"])
  readSortableResp := some (200, ["popularity"])
  readFacetableResp := some (200, ["genres"])
  readFilterableResp := some (200, ["genres"])
  readWordIndexingResp := some (200, ["title"])
  rangeFilterResp := some (200, ⟨"fid1", "speed"⟩)
  valueFilterResp := some (200, ⟨"fid2", "speed"⟩)
  combineResp := some (200, ⟨"fid3", "speed"⟩)
  boostResp := some (200, ⟨⟨"fid3", "speed"⟩, 3⟩)
  loadStreamResp := some 200
  preLoadStatusResp := okStatus .Loading
  loadPolls := [okStatus .Loading, okStatus .Loaded]
  loadDurStr := "0.2"
  numRecordsResp := some (200, 10000)
  fmtNum := fun n => toString n
  indexResp := some 200
  indexPolls := [okStatus .Indexing, okStatus .Ready]
  indexDurStr := "0.3"
  searchResp := some (200,
    { records := some [⟨17, 95⟩], facets := none, didTimeOut := false
      truncationIndex := 0, truncationScore := 0 })
  getJsonResps := [some (200, ["json-document"])]
  fmtScore := fun _ => "95.00"

/-- `wAllOk` with a failing create-or-open call. -/
def wOpenFail : World := { wAllOk with openResp := some 500 }

/-- `wAllOk` with a failing searchable-fields verification re-read. -/
def wVerifyFail : World := { wAllOk with readSearchableResp := some (500, []) }

/-- `wAllOk` with the data file missing. -/
def wNoFile : World := { wAllOk with fileExists := false }

/-!
## Helper lemmas

Shared facts about the wrapper functions and the polling loop, used by
several of the claim theorems below.
-/

theorem getStatus_ne_ok_none (r : HttpResp SystemStatus) : getStatus r ≠ Step.ok none := by
  rcases r with _ | ⟨code, st⟩
  · simp [getStatus]
  · by_cases h : is2xx code <;> simp [getStatus, h]

theorem getStatus_cases (r : HttpResp SystemStatus) :
    getStatus r = Step.exit (-1) ∨ ∃ u, getStatus r = Step.ok (some u) := by
  rcases r with _ | ⟨code, st⟩
  · left; rfl
  · by_cases h : is2xx code
    · right; exact ⟨st, by simp [getStatus, h]⟩
    · left; simp [getStatus, h]

theorem getStatus_of_respOk (r : HttpResp SystemStatus) (h : respOk r = true) :
    ∃ c u, r = some (c, u) ∧ getStatus r = Step.ok (some u) := by
  rcases r with _ | ⟨code, st⟩
  · simp [respOk] at h
  · exact ⟨code, st, rfl, by simp [respOk] at h; simp [getStatus, h]⟩

theorem getStatus_of_respFail (r : HttpResp SystemStatus) (h : respOk r = false) :
    getStatus r = Step.exit (-1) := by
  rcases r with _ | ⟨code, st⟩
  · rfl
  · simp [respOk] at h; simp [getStatus, h]

theorem fieldListGet_of_respOk (r : HttpResp (List String)) (h : respOk r = true) :
    ∃ d, fieldListGet r = Step.ok d := by
  rcases r with _ | ⟨code, d⟩
  · simp [respOk] at h
  · exact ⟨d, by simp [respOk] at h; simp [fieldListGet, h]⟩

theorem fieldListGet_of_respFail (r : HttpResp (List String)) (h : respOk r = false) :
    fieldListGet r = Step.exit (-1) := by
  rcases r with _ | ⟨code, d⟩
  · rfl
  · simp [respOk] at h; simp [fieldListGet, h]

theorem analyze_isSome_eq (r : HttpResp SystemStatus) : (analyze r).isSome = respOk r := by
  rcases r with _ | ⟨code, st⟩
  · rfl
  · by_cases h : is2xx code <;> simp [analyze, respOk, h]

theorem waitLoop_reqs (f : Option SystemStatus → Bool) (l : String)
    (polls : List (HttpResp SystemStatus)) (n : Nat) :
    ∀ q ∈ (waitLoop f l polls n).reqs, q = Req.getStatusReq := by
  induction polls generalizing n with
  | nil => intro q hq; simp [waitLoop] at hq
  | cons r rest ih =>
    intro q hq
    rcases getStatus_cases r with hg | ⟨u, hg⟩
    · simp [waitLoop, hg] at hq; exact hq
    · by_cases hp : f (some u)
      · simp [waitLoop, hg, hp] at hq
        rcases hq with hq | hq
        · exact hq
        · exact ih (n + 1) q hq
      · simp [waitLoop, hg, hp] at hq; exact hq

theorem displayResults_reqs (w : World) (recs : List SearchRecord)
    (resps : List (HttpResp (List String))) (n : Nat) :
    ∀ q ∈ (displayResults w recs resps n).reqs, q = Req.getJsonReq := by
  induction recs generalizing resps n with
  | nil => intro q hq; simp [displayResults] at hq
  | cons item rest ih =>
    intro q hq
    rcases resps with _ | ⟨jr, restResps⟩
    · simp [displayResults] at hq; exact hq
    · rcases hg : getJson [item.documentKey] jr with d | c
      · simp [displayResults, hg] at hq
        rcases hq with hq | hq
        · exact hq
        · exact ih restResps (n + 1) q hq
      · simp [displayResults, hg] at hq; exact hq

theorem waitLoop_done (f : Option SystemStatus → Bool) (l : String)
    (polls : List (HttpResp SystemStatus)) (n : Nat) (st : Option SystemStatus)
    (h : (waitLoop f l polls n).out = LoopOutcome.done st) :
    f st = false ∧ ∃ u, st = some u := by
  induction polls generalizing n with
  | nil => simp [waitLoop] at h
  | cons r rest ih =>
    rcases getStatus_cases r with hg | ⟨u, hg⟩
    · simp [waitLoop, hg] at h
    · by_cases hp : f (some u)
      · simp [waitLoop, hg, hp] at h
        exact ih (n + 1) h
      · simp [waitLoop, hg, hp] at h
        subst h
        exact ⟨by simpa using hp, u, rfl⟩

theorem waitLoop_all_proceed (f : Option SystemStatus → Bool) (l : String)
    (polls : List (HttpResp SystemStatus)) (n : Nat)
    (h : ∀ p ∈ polls, ∃ c u, p = some (c, u) ∧ is2xx c = true ∧ f (some u) = true) :
    (waitLoop f l polls n).out = LoopOutcome.noMoreResponses := by
  induction polls generalizing n with
  | nil => simp [waitLoop]
  | cons r rest ih =>
    obtain ⟨c, u, rfl, hc, hf⟩ := h r (List.mem_cons_self r rest)
    have hg : getStatus (some (c, u)) = Step.ok (some u) := by simp [getStatus, hc]
    simp [waitLoop, hg, hf]
    exact ih (n + 1) (fun p hp => h p (List.mem_cons_of_mem _ hp))

theorem waitLoop_stop (f : Option SystemStatus → Bool) (l : String)
    (pre : List (HttpResp SystemStatus)) (c : Nat) (u : SystemStatus)
    (post : List (HttpResp SystemStatus)) (n : Nat)
    (hpre : ∀ p ∈ pre, ∃ d v, p = some (d, v) ∧ is2xx d = true ∧ f (some v) = true)
    (hc : is2xx c = true) (hu : f (some u) = false) :
    (waitLoop f l (pre ++ some (c, u) :: post) n).out = LoopOutcome.done (some u) := by
  induction pre generalizing n with
  | nil =>
    have hg : getStatus (some (c, u)) = Step.ok (some u) := by simp [getStatus, hc]
    simp [waitLoop, hg, hu]
  | cons r rest ih =>
    obtain ⟨d, v, rfl, hd, hf⟩ := hpre r (List.mem_cons_self r rest)
    have hg : getStatus (some (d, v)) = Step.ok (some v) := by simp [getStatus, hd]
    simp [waitLoop, hg, hf]
    exact ih (n + 1) (fun p hp => hpre p (List.mem_cons_of_mem _ hp))

theorem waitLoop_fail (f : Option SystemStatus → Bool) (l : String)
    (pre : List (HttpResp SystemStatus)) (p : HttpResp SystemStatus)
    (post : List (HttpResp SystemStatus)) (n : Nat)
    (hpre : ∀ q ∈ pre, ∃ d v, q = some (d, v) ∧ is2xx d = true ∧ f (some v) = true)
    (hp : respOk p = false) :
    (waitLoop f l (pre ++ p :: post) n).out = LoopOutcome.procExit (-1) := by
  induction pre generalizing n with
  | nil =>
    have hg := getStatus_of_respFail p hp
    simp [waitLoop, hg]
  | cons r rest ih =>
    obtain ⟨d, v, rfl, hd, hf⟩ := hpre r (List.mem_cons_self r rest)
    have hg : getStatus (some (d, v)) = Step.ok (some v) := by simp [getStatus, hd]
    simp [waitLoop, hg, hf]
    exact ih (n + 1) (fun q hq => hpre q (List.mem_cons_of_mem _ hq))

theorem loadDataset_noFile_reqs (name : String) (cfg : DatasetConfig) (w : World)
    (h : w.fileExists = false) : (loadDataset name (some cfg) w).reqs = [] := by
  simp [loadDataset, h]

theorem loadDataset_file_reqs (name : String) (cfg : DatasetConfig) (w : World)
    (h : w.fileExists = true) :
    (loadDataset name (some cfg) w).reqs = (openPhase cfg w).reqs := by
  simp [loadDataset, h]

theorem loadDataset_file_out (name : String) (cfg : DatasetConfig) (w : World)
    (h : w.fileExists = true) :
    (loadDataset name (some cfg) w).out = (openPhase cfg w).out := by
  simp [loadDataset, h]

theorem openPhase_fail_reqs (cfg : DatasetConfig) (w : World)
    (h : createOrOpenDataSet w.openResp = false) :
    (openPhase cfg w).reqs = [Req.createOrOpenReq] := by
  simp [openPhase, h]

theorem openPhase_ok_reqs (cfg : DatasetConfig) (w : World)
    (h : createOrOpenDataSet w.openResp = true) :
    (openPhase cfg w).reqs = Req.createOrOpenReq :: (analyzePhase cfg w).reqs := by
  simp [openPhase, h]

theorem openPhase_ok_out (cfg : DatasetConfig) (w : World)
    (h : createOrOpenDataSet w.openResp = true) :
    (openPhase cfg w).out = (analyzePhase cfg w).out := by
  simp [openPhase, h]

theorem analyzePhase_ok_reqs (cfg : DatasetConfig) (w : World)
    (ha : respOk w.analyzeResp = true) (hs : respOk w.status1Resp = true)
    (hf : respOk w.allFieldsResp = true) :
    (analyzePhase cfg w).reqs =
      [Req.analyzeReq, Req.getStatusReq, Req.getAllFieldsReq] ++ (configurePhase cfg w).reqs := by
  have ha2 : (analyze w.analyzeResp).isSome = true := by rw [analyze_isSome_eq]; exact ha
  rcases hae : analyze w.analyzeResp with _ | st
  · rw [hae] at ha2; simp at ha2
  · obtain ⟨c, u, _, hg⟩ := getStatus_of_respOk _ hs
    obtain ⟨d, hfe⟩ := fieldListGet_of_respOk _ hf
    simp [analyzePhase, hae, hg, getAllFields, hfe]

theorem analyzePhase_ok_out (cfg : DatasetConfig) (w : World)
    (ha : respOk w.analyzeResp = true) (hs : respOk w.status1Resp = true)
    (hf : respOk w.allFieldsResp = true) :
    (analyzePhase cfg w).out = (configurePhase cfg w).out := by
  have ha2 : (analyze w.analyzeResp).isSome = true := by rw [analyze_isSome_eq]; exact ha
  rcases hae : analyze w.analyzeResp with _ | st
  · rw [hae] at ha2; simp at ha2
  · obtain ⟨c, u, _, hg⟩ := getStatus_of_respOk _ hs
    obtain ⟨d, hfe⟩ := fieldListGet_of_respOk _ hf
    simp [analyzePhase, hae, hg, getAllFields, hfe]

theorem configurePhase_ok_reqs (cfg : DatasetConfig) (w : World)
    (h1 : setSearchableFields cfg.searchableFields w.setSearchableResp = true)
    (h2 : setFilterableFields cfg.filterableFields w.setFilterableResp = true)
    (h3 : setFacetableFields cfg.facetableFields w.setFacetableResp = true)
    (h4 : setSortableFields cfg.sortableFields w.setSortableResp = true)
    (h5 : setWordIndexingFields cfg.wordIndexingFields w.setWordIndexingResp = true) :
    (configurePhase cfg w).reqs =
      [Req.setSearchableReq, Req.setFilterableReq, Req.setFacetableReq, Req.setSortableReq,
       Req.setWordIndexingReq] ++ (verifyPhase cfg w).reqs := by
  simp [configurePhase, h1, h2, h3, h4, h5]

theorem configurePhase_ok_out (cfg : DatasetConfig) (w : World)
    (h1 : setSearchableFields cfg.searchableFields w.setSearchableResp = true)
    (h2 : setFilterableFields cfg.filterableFields w.setFilterableResp = true)
    (h3 : setFacetableFields cfg.facetableFields w.setFacetableResp = true)
    (h4 : setSortableFields cfg.sortableFields w.setSortableResp = true)
    (h5 : setWordIndexingFields cfg.wordIndexingFields w.setWordIndexingResp = true) :
    (configurePhase cfg w).out = (verifyPhase cfg w).out := by
  simp [configurePhase, h1, h2, h3, h4, h5]

theorem verifyPhase_ok_reqs (cfg : DatasetConfig) (w : World)
    (r1 : respOk w.readSearchableResp = true) (r2 : respOk w.readSortableResp = true)
    (r3 : respOk w.readFacetableResp = true) (r4 : respOk w.readFilterableResp = true)
    (r5 : respOk w.readWordIndexingResp = true) :
    (verifyPhase cfg w).reqs =
      [Req.getSearchableReq, Req.getSortableReq, Req.getFacetableReq, Req.getFilterableReq,
       Req.getWordIndexingReq] ++ filterDemo cfg w ++ (loadPhase cfg w).reqs := by
  obtain ⟨d1, e1⟩ := fieldListGet_of_respOk _ r1
  obtain ⟨d2, e2⟩ := fieldListGet_of_respOk _ r2
  obtain ⟨d3, e3⟩ := fieldListGet_of_respOk _ r3
  obtain ⟨d4, e4⟩ := fieldListGet_of_respOk _ r4
  obtain ⟨d5, e5⟩ := fieldListGet_of_respOk _ r5
  simp [verifyPhase, getSearchableFields, getSortableFields, getFacetableFields,
        getFilterableFields, getWordIndexingFields, e1, e2, e3, e4, e5]

theorem verifyPhase_ok_out (cfg : DatasetConfig) (w : World)
    (r1 : respOk w.readSearchableResp = true) (r2 : respOk w.readSortableResp = true)
    (r3 : respOk w.readFacetableResp = true) (r4 : respOk w.readFilterableResp = true)
    (r5 : respOk w.readWordIndexingResp = true) :
    (verifyPhase cfg w).out = (loadPhase cfg w).out := by
  obtain ⟨d1, e1⟩ := fieldListGet_of_respOk _ r1
  obtain ⟨d2, e2⟩ := fieldListGet_of_respOk _ r2
  obtain ⟨d3, e3⟩ := fieldListGet_of_respOk _ r3
  obtain ⟨d4, e4⟩ := fieldListGet_of_respOk _ r4
  obtain ⟨d5, e5⟩ := fieldListGet_of_respOk _ r5
  simp [verifyPhase, getSearchableFields, getSortableFields, getFacetableFields,
        getFilterableFields, getWordIndexingFields, e1, e2, e3, e4, e5]

theorem verifyPhase_fail_out (cfg : DatasetConfig) (w : World)
    (h : ¬ (respOk w.readSearchableResp = true ∧ respOk w.readSortableResp = true
            ∧ respOk w.readFacetableResp = true ∧ respOk w.readFilterableResp = true
            ∧ respOk w.readWordIndexingResp = true)) :
    (verifyPhase cfg w).out = RunOutcome.procExit (-1) := by
  by_cases r1 : respOk w.readSearchableResp = true
  · obtain ⟨d1, e1⟩ := fieldListGet_of_respOk _ r1
    by_cases r2 : respOk w.readSortableResp = true
    · obtain ⟨d2, e2⟩ := fieldListGet_of_respOk _ r2
      by_cases r3 : respOk w.readFacetableResp = true
      · obtain ⟨d3, e3⟩ := fieldListGet_of_respOk _ r3
        by_cases r4 : respOk w.readFilterableResp = true
        · obtain ⟨d4, e4⟩ := fieldListGet_of_respOk _ r4
          by_cases r5 : respOk w.readWordIndexingResp = true
          · exact absurd ⟨r1, r2, r3, r4, r5⟩ h
          · have e5 := fieldListGet_of_respFail _ (by simpa using r5)
            simp [verifyPhase, getSearchableFields, getSortableFields, getFacetableFields,
                  getFilterableFields, getWordIndexingFields, e1, e2, e3, e4, e5]
        · have e4 := fieldListGet_of_respFail _ (by simpa using r4)
          simp [verifyPhase, getSearchableFields, getSortableFields, getFacetableFields,
                getFilterableFields, e1, e2, e3, e4]
      · have e3 := fieldListGet_of_respFail _ (by simpa using r3)
        simp [verifyPhase, getSearchableFields, getSortableFields, getFacetableFields, e1, e2, e3]
    · have e2 := fieldListGet_of_respFail _ (by simpa using r2)
      simp [verifyPhase, getSearchableFields, getSortableFields, e1, e2]
  · have e1 := fieldListGet_of_respFail _ (by simpa using r1)
    simp [verifyPhase, getSearchableFields, e1]

theorem mem_searchPhase (cfg : DatasetConfig) (w : World) (nr : Int) (q : Req)
    (hq : q ∈ (searchPhase cfg w nr).reqs) : q = Req.searchReq ∨ q = Req.getJsonReq := by
  rcases hs : search (testQueryOf cfg) w.searchResp with _ | res
  · simp [searchPhase, hs] at hq; simp [hq]
  · rcases hr : res.records with _ | recs
    · simp [searchPhase, hs, hr] at hq; simp [hq]
    · by_cases hz : recs.length = 0
      · simp [searchPhase, hs, hr, hz] at hq; simp [hq]
      · cases ho : (displayResults w recs w.getJsonResps 1).out with
        | completed =>
          simp [searchPhase, hs, hr, hz, ho] at hq
          rcases hq with hq | hq
          · simp [hq]
          · exact Or.inr (displayResults_reqs w recs w.getJsonResps 1 q hq)
        | procExit c =>
          simp [searchPhase, hs, hr, hz, ho] at hq
          rcases hq with hq | hq
          · simp [hq]
          · exact Or.inr (displayResults_reqs w recs w.getJsonResps 1 q hq)
        | noMoreResponses =>
          simp [searchPhase, hs, hr, hz, ho] at hq
          rcases hq with hq | hq
          · simp [hq]
          · exact Or.inr (displayResults_reqs w recs w.getJsonResps 1 q hq)
        | aborted =>
          simp [searchPhase, hs, hr, hz, ho] at hq
          rcases hq with hq | hq
          · simp [hq]
          · exact Or.inr (displayResults_reqs w recs w.getJsonResps 1 q hq)

theorem mem_indexPhase (cfg : DatasetConfig) (w : World) (nr : Int) (q : Req)
    (hq : q ∈ (indexPhase cfg w nr).reqs) :
    q ∈ [Req.indexDataSetReq, Req.getStatusReq]
      ∨ (indexDataSet w.indexResp = true ∧ q ∈ (searchPhase cfg w nr).reqs) := by
  by_cases hi : indexDataSet w.indexResp
  · cases ho : (waitLoop indexProceedOf "Indexing" w.indexPolls 0).out with
    | done st =>
      simp [indexPhase, hi, ho] at hq
      rcases hq with hq | hq | hq
      · simp [hq]
      · exact Or.inl (by simp [waitLoop_reqs _ _ _ _ q hq])
      · exact Or.inr ⟨hi, hq⟩
    | procExit c =>
      simp [indexPhase, hi, ho] at hq
      rcases hq with hq | hq
      · simp [hq]
      · exact Or.inl (by simp [waitLoop_reqs _ _ _ _ q hq])
    | noMoreResponses =>
      simp [indexPhase, hi, ho] at hq
      rcases hq with hq | hq
      · simp [hq]
      · exact Or.inl (by simp [waitLoop_reqs _ _ _ _ q hq])
  · simp [indexPhase, hi] at hq
    simp [hq]

theorem mem_loadPhase (cfg : DatasetConfig) (w : World) (q : Req)
    (hq : q ∈ (loadPhase cfg w).reqs) :
    q ∈ [Req.loadStreamReq, Req.getStatusReq, Req.getNumRecordsReq]
      ∨ (loadStreamAsync w.loadStreamResp = true
          ∧ q ∈ (indexPhase cfg w (getNumberOfJsonRecordsInDb w.numRecordsResp)).reqs) := by
  by_cases hl : loadStreamAsync w.loadStreamResp
  · rcases getStatus_cases w.preLoadStatusResp with hg | ⟨u, hg⟩
    · simp [loadPhase, hl, hg] at hq
      rcases hq with hq | hq <;> simp [hq]
    · cases ho : (waitLoop loadProceedOf "Loading data" w.loadPolls 0).out with
      | done st =>
        simp [loadPhase, hl, hg, ho] at hq
        rcases hq with hq | hq | hq | hq | hq
        · simp [hq]
        · simp [hq]
        · exact Or.inl (by simp [waitLoop_reqs _ _ _ _ q hq])
        · simp [hq]
        · exact Or.inr ⟨hl, hq⟩
      | procExit c =>
        simp [loadPhase, hl, hg, ho] at hq
        rcases hq with hq | hq | hq
        · simp [hq]
        · simp [hq]
        · exact Or.inl (by simp [waitLoop_reqs _ _ _ _ q hq])
      | noMoreResponses =>
        simp [loadPhase, hl, hg, ho] at hq
        rcases hq with hq | hq | hq
        · simp [hq]
        · simp [hq]
        · exact Or.inl (by simp [waitLoop_reqs _ _ _ _ q hq])
  · simp [loadPhase, hl] at hq
    simp [hq]

theorem loadPhase_subset (cfg : DatasetConfig) (w : World) (q : Req)
    (hq : q ∈ (loadPhase cfg w).reqs) :
    q ∈ [Req.loadStreamReq, Req.getStatusReq, Req.getNumRecordsReq, Req.indexDataSetReq,
         Req.searchReq, Req.getJsonReq] := by
  rcases mem_loadPhase cfg w q hq with h | ⟨_, h⟩
  · simp at h; rcases h with h | h | h <;> simp [h]
  · rcases mem_indexPhase cfg w _ q h with h2 | ⟨_, h2⟩
    · simp at h2; rcases h2 with h2 | h2 <;> simp [h2]
    · rcases mem_searchPhase cfg w _ q h2 with h3 | h3 <;> simp [h3]

theorem loadPhase_starts (cfg : DatasetConfig) (w : World) :
    Req.loadStreamReq ∈ (loadPhase cfg w).reqs := by
  by_cases hl : loadStreamAsync w.loadStreamResp
  · rcases getStatus_cases w.preLoadStatusResp with hg | ⟨u, hg⟩
    · simp [loadPhase, hl, hg]
    · cases ho : (waitLoop loadProceedOf "Loading data" w.loadPolls 0).out with
      | done st => simp [loadPhase, hl, hg, ho]
      | procExit c => simp [loadPhase, hl, hg, ho]
      | noMoreResponses => simp [loadPhase, hl, hg, ho]
  · simp [loadPhase, hl]

theorem configure_mem_filterable (cfg : DatasetConfig) (w : World)
    (h : Req.setFilterableReq ∈ (configurePhase cfg w).reqs) :
    setSearchableFields cfg.searchableFields w.setSearchableResp = true := by
  by_contra hb
  rw [Bool.not_eq_true] at hb
  simp [configurePhase, hb] at h

theorem configure_mem_facetable (cfg : DatasetConfig) (w : World)
    (h : Req.setFacetableReq ∈ (configurePhase cfg w).reqs) :
    setFilterableFields cfg.filterableFields w.setFilterableResp = true := by
  by_contra hb
  rw [Bool.not_eq_true] at hb
  by_cases h1 : setSearchableFields cfg.searchableFields w.setSearchableResp
  · simp [configurePhase, h1, hb] at h
  · simp [configurePhase, h1] at h

theorem configure_mem_sortable (cfg : DatasetConfig) (w : World)
    (h : Req.setSortableReq ∈ (configurePhase cfg w).reqs) :
    setFacetableFields cfg.facetableFields w.setFacetableResp = true := by
  by_contra hb
  rw [Bool.not_eq_true] at hb
  by_cases h1 : setSearchableFields cfg.searchableFields w.setSearchableResp
  · by_cases h2 : setFilterableFields cfg.filterableFields w.setFilterableResp
    · simp [configurePhase, h1, h2, hb] at h
    · simp [configurePhase, h1, h2] at h
  · simp [configurePhase, h1] at h

theorem configure_mem_wordIndexing (cfg : DatasetConfig) (w : World)
    (h : Req.setWordIndexingReq ∈ (configurePhase cfg w).reqs) :
    setSortableFields cfg.sortableFields w.setSortableResp = true := by
  by_contra hb
  rw [Bool.not_eq_true] at hb
  by_cases h1 : setSearchableFields cfg.searchableFields w.setSearchableResp
  · by_cases h2 : setFilterableFields cfg.filterableFields w.setFilterableResp
    · by_cases h3 : setFacetableFields cfg.facetableFields w.setFacetableResp
      · simp [configurePhase, h1, h2, h3, hb] at h
      · simp [configurePhase, h1, h2, h3] at h
    · simp [configurePhase, h1, h2] at h
  · simp [configurePhase, h1] at h

theorem mem_configurePhase (cfg : DatasetConfig) (w : World) (q : Req)
    (hq : q ∈ (configurePhase cfg w).reqs) :
    q ∈ [Req.setSearchableReq, Req.setFilterableReq, Req.setFacetableReq, Req.setSortableReq,
         Req.setWordIndexingReq]
      ∨ (setSearchableFields cfg.searchableFields w.setSearchableResp = true
         ∧ setFilterableFields cfg.filterableFields w.setFilterableResp = true
         ∧ setFacetableFields cfg.facetableFields w.setFacetableResp = true
         ∧ setSortableFields cfg.sortableFields w.setSortableResp = true
         ∧ setWordIndexingFields cfg.wordIndexingFields w.setWordIndexingResp = true
         ∧ q ∈ (verifyPhase cfg w).reqs) := by
  by_cases h1 : setSearchableFields cfg.searchableFields w.setSearchableResp
  · by_cases h2 : setFilterableFields cfg.filterableFields w.setFilterableResp
    · by_cases h3 : setFacetableFields cfg.facetableFields w.setFacetableResp
      · by_cases h4 : setSortableFields cfg.sortableFields w.setSortableResp
        · by_cases h5 : setWordIndexingFields cfg.wordIndexingFields w.setWordIndexingResp
          · rw [configurePhase_ok_reqs cfg w h1 h2 h3 h4 h5] at hq
            simp at hq
            rcases hq with hq | hq | hq | hq | hq | hq
            · exact Or.inl (by simp [hq])
            · exact Or.inl (by simp [hq])
            · exact Or.inl (by simp [hq])
            · exact Or.inl (by simp [hq])
            · exact Or.inl (by simp [hq])
            · exact Or.inr ⟨h1, h2, h3, h4, h5, hq⟩
          · simp [configurePhase, h1, h2, h3, h4, h5] at hq
            rcases hq with hq | hq | hq | hq | hq <;> exact Or.inl (by simp [hq])
        · simp [configurePhase, h1, h2, h3, h4] at hq
          rcases hq with hq | hq | hq | hq <;> exact Or.inl (by simp [hq])
      · simp [configurePhase, h1, h2, h3] at hq
        rcases hq with hq | hq | hq <;> exact Or.inl (by simp [hq])
    · simp [configurePhase, h1, h2] at hq
      rcases hq with hq | hq <;> exact Or.inl (by simp [hq])
  · simp [configurePhase, h1] at hq
    exact Or.inl (by simp [hq])

theorem mem_verifyPhase (cfg : DatasetConfig) (w : World) (q : Req)
    (hq : q ∈ (verifyPhase cfg w).reqs) :
    q ∈ [Req.getSearchableReq, Req.getSortableReq, Req.getFacetableReq, Req.getFilterableReq,
         Req.getWordIndexingReq]
      ∨ q ∈ filterDemo cfg w ∨ q ∈ (loadPhase cfg w).reqs := by
  rcases e1 : getSearchableFields w.readSearchableResp with d1 | c1
  on_goal 2 => simp [verifyPhase, e1] at hq; simp [hq]
  rcases e2 : getSortableFields w.readSortableResp with d2 | c2
  on_goal 2 => simp [verifyPhase, e1, e2] at hq; rcases hq with hq | hq <;> simp [hq]
  rcases e3 : getFacetableFields w.readFacetableResp with d3 | c3
  on_goal 2 =>
    simp [verifyPhase, e1, e2, e3] at hq; rcases hq with hq | hq | hq <;> simp [hq]
  rcases e4 : getFilterableFields w.readFilterableResp with d4 | c4
  on_goal 2 =>
    simp [verifyPhase, e1, e2, e3, e4] at hq; rcases hq with hq | hq | hq | hq <;> simp [hq]
  rcases e5 : getWordIndexingFields w.readWordIndexingResp with d5 | c5
  on_goal 2 =>
    simp [verifyPhase, e1, e2, e3, e4, e5] at hq
    rcases hq with hq | hq | hq | hq | hq <;> simp [hq]
  simp [verifyPhase, e1, e2, e3, e4, e5] at hq
  rcases hq with hq | hq | hq | hq | hq | hq | hq
  · simp [hq]
  · simp [hq]
  · simp [hq]
  · simp [hq]
  · simp [hq]
  · exact Or.inr (Or.inl hq)
  · exact Or.inr (Or.inr hq)

theorem mem_analyzePhase (cfg : DatasetConfig) (w : World) (q : Req)
    (hq : q ∈ (analyzePhase cfg w).reqs) :
    q ∈ [Req.analyzeReq, Req.getStatusReq, Req.getAllFieldsReq]
      ∨ (respOk w.analyzeResp = true ∧ q ∈ (configurePhase cfg w).reqs) := by
  rcases hae : analyze w.analyzeResp with _ | st
  · simp [analyzePhase, hae] at hq; simp [hq]
  · have ha : respOk w.analyzeResp = true := by
      have h := analyze_isSome_eq w.analyzeResp
      rw [hae] at h; exact h.symm
    rcases getStatus_cases w.status1Resp with hg | ⟨u, hg⟩
    · simp [analyzePhase, hae, hg] at hq
      rcases hq with hq | hq <;> simp [hq]
    · rcases he : getAllFields w.allFieldsResp with d | c
      · simp [analyzePhase, hae, hg, he] at hq
        rcases hq with hq | hq | hq | hq
        · simp [hq]
        · simp [hq]
        · simp [hq]
        · exact Or.inr ⟨ha, hq⟩
      · simp [analyzePhase, hae, hg, he] at hq
        rcases hq with hq | hq | hq <;> simp [hq]

theorem mem_openPhase (cfg : DatasetConfig) (w : World) (q : Req)
    (hq : q ∈ (openPhase cfg w).reqs) :
    q = Req.createOrOpenReq
      ∨ (createOrOpenDataSet w.openResp = true ∧ q ∈ (analyzePhase cfg w).reqs) := by
  by_cases ho : createOrOpenDataSet w.openResp
  · rw [openPhase_ok_reqs cfg w ho] at hq
    rcases List.mem_cons.mp hq with hq | hq
    · exact Or.inl hq
    · exact Or.inr ⟨ho, hq⟩
  · rw [openPhase_fail_reqs cfg w (by simpa using ho)] at hq
    simp at hq
    exact Or.inl hq

theorem mem_loadDataset (name : String) (cfg : DatasetConfig) (w : World) (q : Req)
    (hq : q ∈ (loadDataset name (some cfg) w).reqs) :
    q = Req.createOrOpenReq
      ∨ (createOrOpenDataSet w.openResp = true ∧ q ∈ (analyzePhase cfg w).reqs) := by
  by_cases hfe : w.fileExists
  · rw [loadDataset_file_reqs name cfg w hfe] at hq
    exact mem_openPhase cfg w q hq
  · rw [loadDataset_noFile_reqs name cfg w (by simpa using hfe)] at hq
    simp at hq

theorem filterDemo_subset (cfg : DatasetConfig) (w : World) (q : Req)
    (hq : q ∈ filterDemo cfg w) :
    q ∈ [Req.createRangeFilterReq, Req.createValueFilterReq, Req.combineFiltersReq,
         Req.createBoostReq] := by
  by_cases hn : cfg.name = "pokedex"
  · rcases h1 : filterPut w.rangeFilterResp with _ | f1
    · simp [filterDemo, createRangeFilter, createValueFilter, hn, h1] at hq
      rcases hq with hq | hq <;> simp [hq]
    · rcases h2 : filterPut w.valueFilterResp with _ | f2
      · simp [filterDemo, createRangeFilter, createValueFilter, hn, h1, h2] at hq
        rcases hq with hq | hq <;> simp [hq]
      · rcases hc : filterPut w.combineResp with _ | fc
        · simp [filterDemo, createRangeFilter, createValueFilter, combineFilters,
                hn, h1, h2, hc] at hq
          rcases hq with hq | hq | hq <;> simp [hq]
        · simp [filterDemo, createRangeFilter, createValueFilter, combineFilters,
                hn, h1, h2, hc] at hq
          rcases hq with hq | hq | hq | hq <;> simp [hq]
  · simp [filterDemo, hn] at hq

theorem filterDemo_always (cfg : DatasetConfig) (w : World) (hn : cfg.name = "pokedex") :
    Req.createRangeFilterReq ∈ filterDemo cfg w
      ∧ Req.createValueFilterReq ∈ filterDemo cfg w := by
  rcases h1 : filterPut w.rangeFilterResp with _ | f1 <;>
    rcases h2 : filterPut w.valueFilterResp with _ | f2 <;>
      simp [filterDemo, createRangeFilter, createValueFilter, hn, h1, h2]

theorem filterDemo_combine_iff (cfg : DatasetConfig) (w : World) (hn : cfg.name = "pokedex") :
    Req.combineFiltersReq ∈ filterDemo cfg w ↔
      ((filterPut w.rangeFilterResp).isSome = true
        ∧ (filterPut w.valueFilterResp).isSome = true) := by
  rcases h1 : filterPut w.rangeFilterResp with _ | f1 <;>
    rcases h2 : filterPut w.valueFilterResp with _ | f2
  · simp [filterDemo, createRangeFilter, createValueFilter, hn, h1, h2]
  · simp [filterDemo, createRangeFilter, createValueFilter, hn, h1, h2]
  · simp [filterDemo, createRangeFilter, createValueFilter, hn, h1, h2]
  · rcases hc : filterPut w.combineResp with _ | fc <;>
      simp [filterDemo, createRangeFilter, createValueFilter, combineFilters, hn, h1, h2, hc]

theorem filterDemo_boost_iff (cfg : DatasetConfig) (w : World) (hn : cfg.name = "pokedex") :
    Req.createBoostReq ∈ filterDemo cfg w ↔
      ((filterPut w.rangeFilterResp).isSome = true
        ∧ (filterPut w.valueFilterResp).isSome = true
        ∧ (filterPut w.combineResp).isSome = true) := by
  rcases h1 : filterPut w.rangeFilterResp with _ | f1 <;>
    rcases h2 : filterPut w.valueFilterResp with _ | f2
  · simp [filterDemo, createRangeFilter, createValueFilter, hn, h1, h2]
  · simp [filterDemo, createRangeFilter, createValueFilter, hn, h1, h2]
  · simp [filterDemo, createRangeFilter, createValueFilter, hn, h1, h2]
  · rcases hc : filterPut w.combineResp with _ | fc <;>
      simp [filterDemo, createRangeFilter, createValueFilter, combineFilters, hn, h1, h2, hc]

/-!
## Claim theorems
-/

/-- C1 (counterexample): the wait-for-index loop does NOT exit on the Error
state.  The loop condition keeps `proceed` true whenever the state differs
from Ready, so on observing Error — even repeatedly — the loop keeps
polling (it consumes every supplied response and still wants more), rather
than exiting as the claim states. -/
theorem c1_error_does_not_exit :
    indexProceedOf (some (mkStatus SystemState.Error)) = true
    ∧ (waitLoop indexProceedOf "Indexing" [okStatus SystemState.Error] 0).out
        = LoopOutcome.noMoreResponses
    ∧ (waitLoop indexProceedOf "Indexing"
        [okStatus SystemState.Error, okStatus SystemState.Error] 0).out
        = LoopOutcome.noMoreResponses := by
  refine ⟨rfl, ?_, ?_⟩ <;> decide

/-- C1 (amended): the wait-for-index polling loop exits exactly when the
observed state equals Ready or a status fetch fails; every other observed
state — including Error — leaves the loop polling.  Stated over every finite
window of polled responses: (1) a normal exit only ever observes Ready;
(2) if every poll is a 2xx whose state differs from Ready the loop consumes
the whole window without exiting; (3) the loop exits at the first 2xx poll
observing Ready; (4) a failed status fetch terminates the process with
exit code -1. -/
theorem c1_indexWait_exits_only_on_ready (polls : List (HttpResp SystemStatus)) (n : Nat) :
    (∀ st, (waitLoop indexProceedOf "Indexing" polls n).out = LoopOutcome.done st →
        ∃ u, st = some u ∧ u.systemState = SystemState.Ready)
    ∧ ((∀ p ∈ polls, ∃ c u, p = some (c, u) ∧ is2xx c = true
          ∧ u.systemState ≠ SystemState.Ready) →
        (waitLoop indexProceedOf "Indexing" polls n).out = LoopOutcome.noMoreResponses)
    ∧ (∀ pre c u post, polls = pre ++ some (c, u) :: post →
        (∀ p ∈ pre, ∃ d v, p = some (d, v) ∧ is2xx d = true
          ∧ v.systemState ≠ SystemState.Ready) →
        is2xx c = true → u.systemState = SystemState.Ready →
        (waitLoop indexProceedOf "Indexing" polls n).out = LoopOutcome.done (some u))
    ∧ (∀ pre p post, polls = pre ++ p :: post →
        (∀ q ∈ pre, ∃ d v, q = some (d, v) ∧ is2xx d = true
          ∧ v.systemState ≠ SystemState.Ready) →
        respOk p = false →
        (waitLoop indexProceedOf "Indexing" polls n).out = LoopOutcome.procExit (-1)) := by
  refine ⟨?_, ?_, ?_, ?_⟩
  · intro st h
    obtain ⟨hf, u, rfl⟩ := waitLoop_done _ _ _ _ _ h
    exact ⟨u, rfl, by simpa [indexProceedOf] using hf⟩
  · intro h
    apply waitLoop_all_proceed
    intro p hp
    obtain ⟨c, u, rfl, hc, hu⟩ := h p hp
    exact ⟨c, u, rfl, hc, by simpa [indexProceedOf] using hu⟩
  · intro pre c u post hpolls hpre hc hu
    subst hpolls
    apply waitLoop_stop
    · intro p hp
      obtain ⟨d, v, rfl, hd, hv⟩ := hpre p hp
      exact ⟨d, v, rfl, hd, by simpa [indexProceedOf] using hv⟩
    · exact hc
    · simp [indexProceedOf, hu]
  · intro pre p post hpolls hpre hp
    subst hpolls
    apply waitLoop_fail
    · intro q hq
      obtain ⟨d, v, rfl, hd, hv⟩ := hpre q hq
      exact ⟨d, v, rfl, hd, by simpa [indexProceedOf] using hv⟩
    · exact hp

/-- C1 (witness): the amended theorem applied on concrete windows — after an
Indexing poll, a Ready poll exits the loop with Ready as the last observed
state. -/
theorem c1_indexWait_witness :
    (waitLoop indexProceedOf "Indexing"
        [okStatus SystemState.Indexing, okStatus SystemState.Ready] 0).out
      = LoopOutcome.done (some (mkStatus SystemState.Ready)) := by
  refine (c1_indexWait_exits_only_on_ready
      [okStatus SystemState.Indexing, okStatus SystemState.Ready] 0).2.2.1
      [okStatus SystemState.Indexing] 200 (mkStatus SystemState.Ready) [] rfl ?_ (by decide) rfl
  intro p hp
  simp at hp
  subst hp
  exact ⟨200, mkStatus SystemState.Indexing, rfl, by decide, by decide⟩

/-- C5: the wait-for-load polling loop exits exactly when the observed state
is no longer Loading or a status fetch fails; it never exits while
repeatedly observing Loading.  Over every finite window of polled
responses: (1) a normal exit only ever observes a state other than Loading;
(2) if every poll is a 2xx observing Loading the loop consumes the whole
window without exiting; (3) the loop exits at the first 2xx poll observing
a non-Loading state; (4) a failed status fetch terminates the process with
exit code -1 (aborting the wait and the run). -/
theorem c5_loadWait_exits_when_not_loading (polls : List (HttpResp SystemStatus)) (n : Nat) :
    (∀ st, (waitLoop loadProceedOf "Loading data" polls n).out = LoopOutcome.done st →
        ∃ u, st = some u ∧ u.systemState ≠ SystemState.Loading)
    ∧ ((∀ p ∈ polls, ∃ c u, p = some (c, u) ∧ is2xx c = true
          ∧ u.systemState = SystemState.Loading) →
        (waitLoop loadProceedOf "Loading data" polls n).out = LoopOutcome.noMoreResponses)
    ∧ (∀ pre c u post, polls = pre ++ some (c, u) :: post →
        (∀ p ∈ pre, ∃ d v, p = some (d, v) ∧ is2xx d = true
          ∧ v.systemState = SystemState.Loading) →
        is2xx c = true → u.systemState ≠ SystemState.Loading →
        (waitLoop loadProceedOf "Loading data" polls n).out = LoopOutcome.done (some u))
    ∧ (∀ pre p post, polls = pre ++ p :: post →
        (∀ q ∈ pre, ∃ d v, q = some (d, v) ∧ is2xx d = true
          ∧ v.systemState = SystemState.Loading) →
        respOk p = false →
        (waitLoop loadProceedOf "Loading data" polls n).out = LoopOutcome.procExit (-1)) := by
  refine ⟨?_, ?_, ?_, ?_⟩
  · intro st h
    obtain ⟨hf, u, rfl⟩ := waitLoop_done _ _ _ _ _ h
    exact ⟨u, rfl, by simpa [loadProceedOf] using hf⟩
  · intro h
    apply waitLoop_all_proceed
    intro p hp
    obtain ⟨c, u, rfl, hc, hu⟩ := h p hp
    exact ⟨c, u, rfl, hc, by simpa [loadProceedOf] using hu⟩
  · intro pre c u post hpolls hpre hc hu
    subst hpolls
    apply waitLoop_stop
    · intro p hp
      obtain ⟨d, v, rfl, hd, hv⟩ := hpre p hp
      exact ⟨d, v, rfl, hd, by simpa [loadProceedOf] using hv⟩
    · exact hc
    · simpa [loadProceedOf] using hu
  · intro pre p post hpolls hpre hp
    subst hpolls
    apply waitLoop_fail
    · intro q hq
      obtain ⟨d, v, rfl, hd, hv⟩ := hpre q hq
      exact ⟨d, v, rfl, hd, by simpa [loadProceedOf] using hv⟩
    · exact hp

/-- C5 (witness): on a window where every poll observes Loading the loop
consumes everything without exiting, and a Loaded poll exits it. -/
theorem c5_loadWait_witness :
    (waitLoop loadProceedOf "Loading data"
        [okStatus SystemState.Loading, okStatus SystemState.Loading] 0).out
      = LoopOutcome.noMoreResponses
    ∧ (waitLoop loadProceedOf "Loading data"
        [okStatus SystemState.Loading, okStatus SystemState.Loaded] 0).out
      = LoopOutcome.done (some (mkStatus SystemState.Loaded)) := by
  constructor
  · apply (c5_loadWait_exits_when_not_loading
        [okStatus SystemState.Loading, okStatus SystemState.Loading] 0).2.1
    intro p hp
    simp at hp
    rcases hp with rfl | rfl
    all_goals exact ⟨200, mkStatus SystemState.Loading, rfl, by decide, by decide⟩
  · refine (c5_loadWait_exits_when_not_loading
        [okStatus SystemState.Loading, okStatus SystemState.Loaded] 0).2.2.1
        [okStatus SystemState.Loading] 200 (mkStatus SystemState.Loaded) [] rfl ?_
        (by decide) (by decide)
    intro p hp
    simp at hp
    subst hp
    exact ⟨200, mkStatus SystemState.Loading, rfl, by decide, by decide⟩

/-- C2 (counterexample): the searchable-fields body does NOT serialize a
field as a two-element array; each entry is a named-property JSON object
(with properties Item1 and Item2, the C# ValueTuple shape), so the claim
that entries are never named-property objects fails on the very first
field. -/
theorem c2_entries_are_objects :
    setSearchableFieldsBody [⟨"title", 0⟩]
        = Json.arr [Json.obj [("Item1", Json.str "title"), ("Item2", Json.num 0)]]
    ∧ Json.isObj (Json.obj [("Item1", Json.str "title"), ("Item2", Json.num 0)]) = true
    ∧ Json.isPairArray (Json.obj [("Item1", Json.str "title"), ("Item2", Json.num 0)]) = false :=
  ⟨rfl, rfl, rfl⟩

/-- C2 (amended): for every field list, `setSearchableFields` serializes
each searchable field as a JSON object with exactly the properties Item1
(the field name, first) and Item2 (the integer weight code, second) — the
shape a serialized C# ValueTuple takes — and never as a two-element array
or as a name/weight object. -/
theorem c2_body_is_item1_item2_objects (fields : List SearchableField) :
    (setSearchableFieldsBody fields).elems
        = fields.map (fun f => Json.obj [("Item1", Json.str f.name), ("Item2", Json.num f.weight)])
    ∧ ∀ e ∈ (setSearchableFieldsBody fields).elems,
        e.isObj = true ∧ e.isPairArray = false ∧ e.keys = ["Item1", "Item2"] := by
  refine ⟨rfl, ?_⟩
  intro e he
  simp [setSearchableFieldsBody, Json.elems] at he
  obtain ⟨f, _, rfl⟩ := he
  exact ⟨rfl, rfl, rfl⟩

/-- C2 (witness): the amended theorem instantiated on the tmdb descriptor
and its first searchable field. -/
theorem c2_body_witness :
    (Json.obj [("Item1", Json.str "title"), ("Item2", Json.num 0)]).keys
      = ["Item1", "Item2"] := by
  have h := (c2_body_is_item1_item2_objects tmdbConfig.searchableFields).2
  have hm : Json.obj [("Item1", Json.str "title"), ("Item2", Json.num 0)]
      ∈ (setSearchableFieldsBody tmdbConfig.searchableFields).elems :=
    List.Mem.head _
  exact (h _ hm).2.2

/-- C6: descriptor lookup is pure and case-insensitive — names with the same
lowercase form resolve identically, lowercased tmdb and pokedex resolve to
their fixed immutable descriptors, every other name gives a not-found
signal, and a run with an unresolved descriptor issues no request at
all. -/
theorem c6_lookup_case_insensitive (s t name : String) (w : World) :
    (toLowerStr s = toLowerStr t → getConfig s = getConfig t)
    ∧ (toLowerStr s = "tmdb" → getConfig s = some tmdbConfig)
    ∧ (toLowerStr s = "pokedex" → getConfig s = some pokedexConfig)
    ∧ (toLowerStr s ∉ getAvailableDatasets → getConfig s = none)
    ∧ (loadDataset name none w).reqs = [] := by
  refine ⟨?_, ?_, ?_, ?_, rfl⟩
  · intro h; simp only [getConfig, h]
  · intro h; simp [getConfig, h]
  · intro h; simp [getConfig, h]
  · intro h
    simp [getAvailableDatasets] at h
    simp [getConfig, h.1, h.2]

/-- C6 (witness): the lookup theorem applied on concrete names — an
upper-case name resolves, an unknown name does not, and an unknown-name run
issues no request. -/
theorem c6_lookup_witness :
    getConfig "TMDB" = some tmdbConfig
    ∧ getConfig "PokeDex" = some pokedexConfig
    ∧ getConfig "unknown" = none
    ∧ (loadDataset "unknown" none wAllOk).reqs = [] :=
  ⟨(c6_lookup_case_insensitive "TMDB" "TMDB" "x" wAllOk).2.1 (by decide),
   (c6_lookup_case_insensitive "PokeDex" "PokeDex" "x" wAllOk).2.2.1 (by decide),
   (c6_lookup_case_insensitive "unknown" "unknown" "x" wAllOk).2.2.2.1 (by decide),
   (c6_lookup_case_insensitive "x" "x" "unknown" wAllOk).2.2.2.2⟩

/-- C8: the combine-filters call site builds its request body with the keys
a, b and useAndOperation — not the filter1/filter2/useAnd fields the
declared `CombinedFilterProxy` interface (and the spec) prescribe.  The
object literal does not even satisfy the interface it is annotated with,
so the code contradicts its own declaration; evaluated at two concrete
previously-issued proxies. -/
theorem c8_combine_body_wrong_keys :
    (combineFiltersSentBody ⟨"fid1", "speed"⟩ ⟨"fid2", "speed"⟩).keys
        = ["a", "b", "useAndOperation"]
    ∧ "filter1" ∉ (combineFiltersSentBody ⟨"fid1", "speed"⟩ ⟨"fid2", "speed"⟩).keys
    ∧ "filter2" ∉ (combineFiltersSentBody ⟨"fid1", "speed"⟩ ⟨"fid2", "speed"⟩).keys
    ∧ "useAnd" ∉ (combineFiltersSentBody ⟨"fid1", "speed"⟩ ⟨"fid2", "speed"⟩).keys
    ∧ (combinedFilterProxyJson ⟨⟨"fid1", "speed"⟩, ⟨"fid2", "speed"⟩, true⟩).keys
        = ["filter1", "filter2", "useAnd"] := by
  refine ⟨rfl, ?_, ?_, ?_, rfl⟩ <;> decide

/-- C9: when the descriptor resolves but the data file does not exist, the
orchestrator issues no HTTP request, returns early, and the error report
names both the configured path and the resolved absolute path of the
expected file. -/
theorem c9_missing_file_aborts (name : String) (cfg : DatasetConfig) (w : World)
    (h : w.fileExists = false) :
    (loadDataset name (some cfg) w).reqs = []
    ∧ (loadDataset name (some cfg) w).out = RunOutcome.aborted
    ∧ Msg.error ("Data file not found: " ++ cfg.filePath)
        ∈ (loadDataset name (some cfg) w).msgs
    ∧ Msg.info ("Expected path: " ++ w.resolvePath cfg.filePath)
        ∈ (loadDataset name (some cfg) w).msgs := by
  refine ⟨?_, ?_, ?_, ?_⟩ <;> simp [loadDataset, h]

/-- C9 (witness): the missing-file theorem on the tmdb descriptor in a world
without the data file. -/
theorem c9_missing_file_witness :
    (loadDataset "tmdb" (some tmdbConfig) wNoFile).reqs = []
    ∧ (loadDataset "tmdb" (some tmdbConfig) wNoFile).out = RunOutcome.aborted
    ∧ Msg.error ("Data file not found: " ++ tmdbConfig.filePath)
        ∈ (loadDataset "tmdb" (some tmdbConfig) wNoFile).msgs
    ∧ Msg.info ("Expected path: " ++ wNoFile.resolvePath tmdbConfig.filePath)
        ∈ (loadDataset "tmdb" (some tmdbConfig) wNoFile).msgs :=
  c9_missing_file_aborts "tmdb" tmdbConfig wNoFile rfl

/-- C10: `getStatus` never hands a null status to its caller — every non-2xx
or thrown status fetch terminates the process with exit code -1 and every
2xx fetch yields a (non-null) snapshot — so the status-is-null fallback
branches of the two polling loops (which would set proceed to false and let
the run continue) are unreachable: no polling loop can finish normally with
a null last-observed status. -/
theorem c10_getStatus_never_null :
    (∀ r : HttpResp SystemStatus, getStatus r ≠ Step.ok none)
    ∧ (∀ r : HttpResp SystemStatus, respOk r = false → getStatus r = Step.exit (-1))
    ∧ (∀ r : HttpResp SystemStatus, respOk r = true → ∃ u, getStatus r = Step.ok (some u))
    ∧ loadProceedOf none = false
    ∧ indexProceedOf none = false
    ∧ (∀ (f : Option SystemStatus → Bool) (l : String) polls n st,
        (waitLoop f l polls n).out = LoopOutcome.done st → st ≠ none) := by
  refine ⟨getStatus_ne_ok_none, fun r h => getStatus_of_respFail r h, ?_, rfl, rfl, ?_⟩
  · intro r h
    obtain ⟨c, u, _, hg⟩ := getStatus_of_respOk r h
    exact ⟨u, hg⟩
  · intro f l polls n st h
    obtain ⟨_, u, rfl⟩ := waitLoop_done f l polls n st h
    simp

/-- C10 (witness): a thrown status fetch exits the process, and a concrete
loop that finished normally observed a non-null status. -/
theorem c10_getStatus_witness :
    getStatus (none : HttpResp SystemStatus) = Step.exit (-1)
    ∧ (some (mkStatus SystemState.Loaded) : Option SystemStatus) ≠ none :=
  ⟨c10_getStatus_never_null.2.1 none rfl,
   c10_getStatus_never_null.2.2.2.2.2 loadProceedOf "Loading data"
     [okStatus SystemState.Loaded] 0 (some (mkStatus SystemState.Loaded)) (by decide)⟩

/-- C3 (counterexample): a failing verification re-read is NOT a non-fatal
informational warning — in a run where all five set calls succeeded but the
searchable-fields re-read gets a 500, the process terminates with exit code
-1 and the run never reaches the load request. -/
theorem c3_read_failure_fatal_example :
    (loadDataset "tmdb" (some tmdbConfig) wVerifyFail).out = RunOutcome.procExit (-1)
    ∧ Req.loadStreamReq ∉ (loadDataset "tmdb" (some tmdbConfig) wVerifyFail).reqs := by
  constructor <;> decide

/-- C3 (amended): in every run in which all five field-configuration set
calls succeed (and the preceding phases succeeded), a failure of any of the
five verification re-read calls terminates the whole process with exit code
-1: it aborts the run rather than being logged as a non-fatal warning. -/
theorem c3_read_failure_exits_process (name : String) (cfg : DatasetConfig) (w : World)
    (hfe : w.fileExists = true)
    (ho : createOrOpenDataSet w.openResp = true)
    (ha : respOk w.analyzeResp = true)
    (hs1 : respOk w.status1Resp = true)
    (hfl : respOk w.allFieldsResp = true)
    (h1 : setSearchableFields cfg.searchableFields w.setSearchableResp = true)
    (h2 : setFilterableFields cfg.filterableFields w.setFilterableResp = true)
    (h3 : setFacetableFields cfg.facetableFields w.setFacetableResp = true)
    (h4 : setSortableFields cfg.sortableFields w.setSortableResp = true)
    (h5 : setWordIndexingFields cfg.wordIndexingFields w.setWordIndexingResp = true)
    (hr : ¬ (respOk w.readSearchableResp = true ∧ respOk w.readSortableResp = true
            ∧ respOk w.readFacetableResp = true ∧ respOk w.readFilterableResp = true
            ∧ respOk w.readWordIndexingResp = true)) :
    (loadDataset name (some cfg) w).out = RunOutcome.procExit (-1) := by
  rw [loadDataset_file_out name cfg w hfe, openPhase_ok_out cfg w ho,
      analyzePhase_ok_out cfg w ha hs1 hfl, configurePhase_ok_out cfg w h1 h2 h3 h4 h5]
  exact verifyPhase_fail_out cfg w hr

/-- C3 (witness): the amended theorem applied on the concrete run whose
searchable-fields re-read fails. -/
theorem c3_read_failure_witness :
    (loadDataset "tmdb" (some tmdbConfig) wVerifyFail).out = RunOutcome.procExit (-1) :=
  c3_read_failure_exits_process "tmdb" tmdbConfig wVerifyFail rfl (by decide) (by decide)
    (by decide) (by decide) (by decide) (by decide) (by decide) (by decide) (by decide)
    (by decide)

/-- C4: phase sequencing.  If the Open phase fails the whole trace is the
single create-or-open request; and each later request is issued only after
the previous phase returned its success signal: Analyze only after Open
succeeded, the first configure call only after Analyze returned a non-null
status, each of the five set calls only after the previous succeeded, the
Load stream only after the last set call succeeded, the Index trigger only
after the load stream succeeded, and the test Search only after the index
trigger succeeded. -/
theorem c4_phase_sequencing (name : String) (cfg : DatasetConfig) (w : World) :
    (w.fileExists = true → createOrOpenDataSet w.openResp = false →
        (loadDataset name (some cfg) w).reqs = [Req.createOrOpenReq])
    ∧ (Req.analyzeReq ∈ (loadDataset name (some cfg) w).reqs →
        createOrOpenDataSet w.openResp = true)
    ∧ (Req.setSearchableReq ∈ (loadDataset name (some cfg) w).reqs →
        respOk w.analyzeResp = true)
    ∧ (Req.setFilterableReq ∈ (loadDataset name (some cfg) w).reqs →
        setSearchableFields cfg.searchableFields w.setSearchableResp = true)
    ∧ (Req.setFacetableReq ∈ (loadDataset name (some cfg) w).reqs →
        setFilterableFields cfg.filterableFields w.setFilterableResp = true)
    ∧ (Req.setSortableReq ∈ (loadDataset name (some cfg) w).reqs →
        setFacetableFields cfg.facetableFields w.setFacetableResp = true)
    ∧ (Req.setWordIndexingReq ∈ (loadDataset name (some cfg) w).reqs →
        setSortableFields cfg.sortableFields w.setSortableResp = true)
    ∧ (Req.loadStreamReq ∈ (loadDataset name (some cfg) w).reqs →
        setWordIndexingFields cfg.wordIndexingFields w.setWordIndexingResp = true)
    ∧ (Req.indexDataSetReq ∈ (loadDataset name (some cfg) w).reqs →
        loadStreamAsync w.loadStreamResp = true)
    ∧ (Req.searchReq ∈ (loadDataset name (some cfg) w).reqs →
        indexDataSet w.indexResp = true) := by
  refine ⟨?_, ?_, ?_, ?_, ?_, ?_, ?_, ?_, ?_, ?_⟩
  · intro hfe ho
    rw [loadDataset_file_reqs name cfg w hfe, openPhase_fail_reqs cfg w ho]
  · intro h
    rcases mem_loadDataset name cfg w _ h with h | ⟨ho, _⟩
    · exact absurd h (by decide)
    · exact ho
  · intro h
    rcases mem_loadDataset name cfg w _ h with h | ⟨_, h⟩
    · exact absurd h (by decide)
    rcases mem_analyzePhase cfg w _ h with h | ⟨ha, _⟩
    · exact absurd h (by decide)
    · exact ha
  · intro h
    rcases mem_loadDataset name cfg w _ h with h | ⟨_, h⟩
    · exact absurd h (by decide)
    rcases mem_analyzePhase cfg w _ h with h | ⟨_, h⟩
    · exact absurd h (by decide)
    exact configure_mem_filterable cfg w h
  · intro h
    rcases mem_loadDataset name cfg w _ h with h | ⟨_, h⟩
    · exact absurd h (by decide)
    rcases mem_analyzePhase cfg w _ h with h | ⟨_, h⟩
    · exact absurd h (by decide)
    exact configure_mem_facetable cfg w h
  · intro h
    rcases mem_loadDataset name cfg w _ h with h | ⟨_, h⟩
    · exact absurd h (by decide)
    rcases mem_analyzePhase cfg w _ h with h | ⟨_, h⟩
    · exact absurd h (by decide)
    exact configure_mem_sortable cfg w h
  · intro h
    rcases mem_loadDataset name cfg w _ h with h | ⟨_, h⟩
    · exact absurd h (by decide)
    rcases mem_analyzePhase cfg w _ h with h | ⟨_, h⟩
    · exact absurd h (by decide)
    exact configure_mem_wordIndexing cfg w h
  · intro h
    rcases mem_loadDataset name cfg w _ h with h | ⟨_, h⟩
    · exact absurd h (by decide)
    rcases mem_analyzePhase cfg w _ h with h | ⟨_, h⟩
    · exact absurd h (by decide)
    rcases mem_configurePhase cfg w _ h with h | ⟨_, _, _, _, h5, _⟩
    · exact absurd h (by decide)
    · exact h5
  · intro h
    rcases mem_loadDataset name cfg w _ h with h | ⟨_, h⟩
    · exact absurd h (by decide)
    rcases mem_analyzePhase cfg w _ h with h | ⟨_, h⟩
    · exact absurd h (by decide)
    rcases mem_configurePhase cfg w _ h with h | ⟨_, _, _, _, _, h⟩
    · exact absurd h (by decide)
    rcases mem_verifyPhase cfg w _ h with h | h | h
    · exact absurd h (by decide)
    · exact absurd (filterDemo_subset cfg w _ h) (by decide)
    rcases mem_loadPhase cfg w _ h with h | ⟨hl, _⟩
    · exact absurd h (by decide)
    · exact hl
  · intro h
    rcases mem_loadDataset name cfg w _ h with h | ⟨_, h⟩
    · exact absurd h (by decide)
    rcases mem_analyzePhase cfg w _ h with h | ⟨_, h⟩
    · exact absurd h (by decide)
    rcases mem_configurePhase cfg w _ h with h | ⟨_, _, _, _, _, h⟩
    · exact absurd h (by decide)
    rcases mem_verifyPhase cfg w _ h with h | h | h
    · exact absurd h (by decide)
    · exact absurd (filterDemo_subset cfg w _ h) (by decide)
    rcases mem_loadPhase cfg w _ h with h | ⟨_, h⟩
    · exact absurd h (by decide)
    rcases mem_indexPhase cfg w _ _ h with h | ⟨hi, _⟩
    · exact absurd h (by decide)
    · exact hi

/-- C4 (witness): with a failing Open call only the create-or-open request
is sent, and in the all-success run the search request implies the index
trigger succeeded. -/
theorem c4_phase_sequencing_witness :
    (loadDataset "tmdb" (some tmdbConfig) wOpenFail).reqs = [Req.createOrOpenReq]
    ∧ indexDataSet wAllOk.indexResp = true :=
  ⟨(c4_phase_sequencing "tmdb" tmdbConfig wOpenFail).1 rfl (by decide),
   (c4_phase_sequencing "tmdb" tmdbConfig wAllOk).2.2.2.2.2.2.2.2.2 (by decide)⟩

/-- C7: the optional filter/boost step for the pokedex dataset, in any run
that reaches it: the range and value filters are always attempted; the
combine-filters request is issued exactly when BOTH filter creations
resolved; the boost request is issued exactly when additionally the
combination resolved; and regardless of any filter failure the run
proceeds to the load request and its overall outcome is exactly that of
the remaining load/index/search phases. -/
theorem c7_filter_demo_best_effort (name : String) (cfg : DatasetConfig) (w : World)
    (hn : cfg.name = "pokedex")
    (hfe : w.fileExists = true)
    (ho : createOrOpenDataSet w.openResp = true)
    (ha : respOk w.analyzeResp = true)
    (hs1 : respOk w.status1Resp = true)
    (hfl : respOk w.allFieldsResp = true)
    (h1 : setSearchableFields cfg.searchableFields w.setSearchableResp = true)
    (h2 : setFilterableFields cfg.filterableFields w.setFilterableResp = true)
    (h3 : setFacetableFields cfg.facetableFields w.setFacetableResp = true)
    (h4 : setSortableFields cfg.sortableFields w.setSortableResp = true)
    (h5 : setWordIndexingFields cfg.wordIndexingFields w.setWordIndexingResp = true)
    (r1 : respOk w.readSearchableResp = true) (r2 : respOk w.readSortableResp = true)
    (r3 : respOk w.readFacetableResp = true) (r4 : respOk w.readFilterableResp = true)
    (r5 : respOk w.readWordIndexingResp = true) :
    (Req.createRangeFilterReq ∈ (loadDataset name (some cfg) w).reqs
      ∧ Req.createValueFilterReq ∈ (loadDataset name (some cfg) w).reqs)
    ∧ (Req.combineFiltersReq ∈ (loadDataset name (some cfg) w).reqs ↔
        ((filterPut w.rangeFilterResp).isSome = true
          ∧ (filterPut w.valueFilterResp).isSome = true))
    ∧ (Req.createBoostReq ∈ (loadDataset name (some cfg) w).reqs ↔
        ((filterPut w.rangeFilterResp).isSome = true
          ∧ (filterPut w.valueFilterResp).isSome = true
          ∧ (filterPut w.combineResp).isSome = true))
    ∧ Req.loadStreamReq ∈ (loadDataset name (some cfg) w).reqs
    ∧ (loadDataset name (some cfg) w).out = (loadPhase cfg w).out := by
  have hreqs : (loadDataset name (some cfg) w).reqs =
      Req.createOrOpenReq :: ([Req.analyzeReq, Req.getStatusReq, Req.getAllFieldsReq]
        ++ ([Req.setSearchableReq, Req.setFilterableReq, Req.setFacetableReq,
             Req.setSortableReq, Req.setWordIndexingReq]
          ++ ([Req.getSearchableReq, Req.getSortableReq, Req.getFacetableReq,
               Req.getFilterableReq, Req.getWordIndexingReq]
            ++ filterDemo cfg w ++ (loadPhase cfg w).reqs))) := by
    rw [loadDataset_file_reqs name cfg w hfe, openPhase_ok_reqs cfg w ho,
        analyzePhase_ok_reqs cfg w ha hs1 hfl, configurePhase_ok_reqs cfg w h1 h2 h3 h4 h5,
        verifyPhase_ok_reqs cfg w r1 r2 r3 r4 r5]
  have hout : (loadDataset name (some cfg) w).out = (loadPhase cfg w).out := by
    rw [loadDataset_file_out name cfg w hfe, openPhase_ok_out cfg w ho,
        analyzePhase_ok_out cfg w ha hs1 hfl, configurePhase_ok_out cfg w h1 h2 h3 h4 h5,
        verifyPhase_ok_out cfg w r1 r2 r3 r4 r5]
  have fwd_combine : Req.combineFiltersReq ∈ (loadDataset name (some cfg) w).reqs →
      Req.combineFiltersReq ∈ filterDemo cfg w := by
    intro h
    rcases mem_loadDataset name cfg w _ h with h | ⟨_, h⟩
    · exact absurd h (by decide)
    rcases mem_analyzePhase cfg w _ h with h | ⟨_, h⟩
    · exact absurd h (by decide)
    rcases mem_configurePhase cfg w _ h with h | ⟨_, _, _, _, _, h⟩
    · exact absurd h (by decide)
    rcases mem_verifyPhase cfg w _ h with h | h | h
    · exact absurd h (by decide)
    · exact h
    · exact absurd (loadPhase_subset cfg w _ h) (by decide)
  have fwd_boost : Req.createBoostReq ∈ (loadDataset name (some cfg) w).reqs →
      Req.createBoostReq ∈ filterDemo cfg w := by
    intro h
    rcases mem_loadDataset name cfg w _ h with h | ⟨_, h⟩
    · exact absurd h (by decide)
    rcases mem_analyzePhase cfg w _ h with h | ⟨_, h⟩
    · exact absurd h (by decide)
    rcases mem_configurePhase cfg w _ h with h | ⟨_, _, _, _, _, h⟩
    · exact absurd h (by decide)
    rcases mem_verifyPhase cfg w _ h with h | h | h
    · exact absurd h (by decide)
    · exact h
    · exact absurd (loadPhase_subset cfg w _ h) (by decide)
  refine ⟨⟨?_, ?_⟩, ⟨?_, ?_⟩, ⟨?_, ?_⟩, ?_, hout⟩
  · have hm := (filterDemo_always cfg w hn).1
    rw [hreqs]
    simp only [List.mem_cons, List.mem_append]
    tauto
  · have hm := (filterDemo_always cfg w hn).2
    rw [hreqs]
    simp only [List.mem_cons, List.mem_append]
    tauto
  · intro h
    exact (filterDemo_combine_iff cfg w hn).mp (fwd_combine h)
  · intro hss
    have hm := (filterDemo_combine_iff cfg w hn).mpr hss
    rw [hreqs]
    simp only [List.mem_cons, List.mem_append]
    tauto
  · intro h
    exact (filterDemo_boost_iff cfg w hn).mp (fwd_boost h)
  · intro hss
    have hm := (filterDemo_boost_iff cfg w hn).mpr hss
    rw [hreqs]
    simp only [List.mem_cons, List.mem_append]
    tauto
  · have hm := loadPhase_starts cfg w
    rw [hreqs]
    simp only [List.mem_cons, List.mem_append]
    tauto

/-- C7 (witness): the theorem on the all-success pokedex run — both filters
resolve, so the combine request is issued and the run still reaches the
load stream. -/
theorem c7_filter_demo_witness :
    Req.combineFiltersReq ∈ (loadDataset "pokedex" (some pokedexConfig) wAllOk).reqs
    ∧ Req.createBoostReq ∈ (loadDataset "pokedex" (some pokedexConfig) wAllOk).reqs
    ∧ Req.loadStreamReq ∈ (loadDataset "pokedex" (some pokedexConfig) wAllOk).reqs := by
  have h := c7_filter_demo_best_effort "pokedex" pokedexConfig wAllOk rfl rfl (by decide)
    (by decide) (by decide) (by decide) (by decide) (by decide) (by decide) (by decide)
    (by decide) (by decide) (by decide) (by decide) (by decide) (by decide)
  exact ⟨h.2.1.mpr ⟨by decide, by decide⟩,
         h.2.2.1.mpr ⟨by decide, by decide, by decide⟩, h.2.2.2.1⟩

end Indx
